import Mathlib

/-!
Shallow embedding of the marketing-analytics aggregation pipeline
(`avrtt/dashbordina`): the materialized views created by
`app/data/generate_synthetic_data.py` (`create_materialized_views`), the
views created by `app/etl/dags/marketing_etl_dag.py` (`calculate_metrics`),
the hourly extract/transform/load helpers of the same DAG, the KPI
summarizer of `app/api/mock_server.py` (`generate_kpi_summary`), and the
serving queries of `app/models/database.py` / `app/api/mock_server.py`.

Conventions: SQL `DECIMAL`/`FLOAT` money amounts are rationals (`ℚ`);
`DATE(timestamp)` is a natural number; `user_id` is a `String`.  SQL
queries are translated with bag semantics: joins are `flatMap`s over
list-valued tables, `GROUP BY` enumerates the distinct key tuples in
first-occurrence order and aggregates the matching joined rows, and
`LEFT JOIN` is a `find?` against the (already grouped, hence key-unique)
right side.  A nullable SQL column is an `Option`.
-/

/-- Keep the first occurrence of every element, dropping later duplicates.
This is how `GROUP BY` key enumeration is embedded. -/
def firstKeys {α : Type} [DecidableEq α] : List α → List α
  | [] => []
  | x :: xs => x :: (firstKeys xs).filter (fun y => y ≠ x)

/-- `COUNT(DISTINCT ...)` over a list of values. -/
def distinctCount {α : Type} [DecidableEq α] (l : List α) : Nat :=
  (firstKeys l).length

/-- Row of `analytics.channels` (`id`, `name`, `type`, `cost_model`). -/
structure Channel where
  id : Nat
  name : String
  ctype : String
  deriving Repr, DecidableEq

/-- Row of `analytics.segments` (`id`, `name`, `description`). -/
structure Segment where
  id : Nat
  name : String
  deriving Repr, DecidableEq

/-- Row of `analytics.campaigns`; `spend` is the `spend`/`spend_to_date`
column. -/
structure Campaign where
  id : Nat
  name : String
  channel_id : Nat
  spend : ℚ
  deriving Repr, DecidableEq

/-- Row of `analytics.user_segments`. -/
structure UserSegment where
  user_id : String
  segment_id : Nat
  deriving Repr, DecidableEq

/-- Row of `raw.user_events`; `date` is `DATE(timestamp)`. -/
structure Event where
  id : Nat
  user_id : String
  name : String
  date : Nat
  campaign_id : Nat
  channel_id : Nat
  deriving Repr, DecidableEq

/-- Row of `analytics.conversions`; `date` is `DATE(timestamp)`. -/
structure Conversion where
  id : Nat
  user_id : String
  ctype : String
  value : ℚ
  date : Nat
  campaign_id : Nat
  channel_id : Nat
  deriving Repr, DecidableEq

/-- The fact store plus reference data read by the aggregation queries. -/
structure FactDB where
  channels : List Channel
  segments : List Segment
  campaigns : List Campaign
  user_segments : List UserSegment
  events : List Event
  conversions : List Conversion
  deriving Repr, DecidableEq

/-! ## Materialized view `analytics.daily_campaign_performance` -/

structure CampPerfRow where
  date : Nat
  campaign_id : Nat
  campaign_name : String
  channel_id : Nat
  channel_name : String
  conversions : Nat
  total_conversion_value : ℚ
  avg_conversion_value : ℚ
  deriving Repr, DecidableEq

/-- `CASE WHEN COUNT(DISTINCT user_id) > 0 THEN SUM(value)/COUNT(...) ELSE 0
END`, shared by the campaign and segment performance views. -/
def avgValue (cnt : Nat) (total : ℚ) : ℚ :=
  if cnt > 0 then total / cnt else 0

/-- `conversions c JOIN campaigns ca ON c.campaign_id = ca.id JOIN channels
ch ON ca.channel_id = ch.id`. -/
def campJoin (db : FactDB) : List (Conversion × Campaign × Channel) :=
  db.conversions.flatMap fun c =>
    (db.campaigns.filter (fun ca => ca.id == c.campaign_id)).flatMap fun ca =>
      (db.channels.filter (fun ch => ch.id == ca.channel_id)).map fun ch =>
        (c, ca, ch)

/-- The `GROUP BY` key of `daily_campaign_performance`:
`DATE(c.timestamp), c.campaign_id, ca.name, ca.channel_id, ch.name`. -/
def campKey (r : Conversion × Campaign × Channel) :
    Nat × Nat × String × Nat × String :=
  (r.1.date, r.1.campaign_id, r.2.1.name, r.2.1.channel_id, r.2.2.name)

def dailyCampaignPerformance (db : FactDB) : List CampPerfRow :=
  let rows := campJoin db
  (firstKeys (rows.map campKey)).map fun k =>
    let grp := rows.filter (fun r => campKey r == k)
    let conv := distinctCount (grp.map (fun r => r.1.user_id))
    let total := (grp.map (fun r => r.1.value)).sum
    { date := k.1, campaign_id := k.2.1, campaign_name := k.2.2.1,
      channel_id := k.2.2.2.1, channel_name := k.2.2.2.2,
      conversions := conv, total_conversion_value := total,
      avg_conversion_value := avgValue conv total }

/-! ## Materialized view `analytics.daily_channel_performance` -/

structure ChanPerfRow where
  date : Nat
  channel_id : Nat
  channel_name : String
  events : Nat
  unique_users : Nat
  clicks : Nat
  impressions : Nat
  ctr : ℚ
  deriving Repr, DecidableEq

/-- `CASE WHEN impressions > 0 THEN clicks::FLOAT / impressions ELSE 0
END`. -/
def ctrValue (clicks impressions : Nat) : ℚ :=
  if impressions > 0 then (clicks : ℚ) / impressions else 0

/-- `user_events e JOIN channels ch ON e.channel_id = ch.id`. -/
def chanJoin (db : FactDB) : List (Event × Channel) :=
  db.events.flatMap fun e =>
    (db.channels.filter (fun ch => ch.id == e.channel_id)).map fun ch =>
      (e, ch)

/-- `GROUP BY DATE(e.timestamp), e.channel_id, ch.name`. -/
def chanKey (r : Event × Channel) : Nat × Nat × String :=
  (r.1.date, r.1.channel_id, r.2.name)

def dailyChannelPerformance (db : FactDB) : List ChanPerfRow :=
  let rows := chanJoin db
  (firstKeys (rows.map chanKey)).map fun k =>
    let grp := rows.filter (fun r => chanKey r == k)
    let clicks := grp.countP (fun r => r.1.name == "click")
    let impressions := grp.countP (fun r => r.1.name == "impression")
    { date := k.1, channel_id := k.2.1, channel_name := k.2.2,
      events := grp.length,
      unique_users := distinctCount (grp.map (fun r => r.1.user_id)),
      clicks := clicks, impressions := impressions,
      ctr := ctrValue clicks impressions }

/-! ## Materialized view `analytics.segment_performance` -/

structure SegPerfRow where
  date : Nat
  segment_id : Nat
  segment_name : String
  conversions : Nat
  total_conversion_value : ℚ
  avg_conversion_value : ℚ
  deriving Repr, DecidableEq

/-- `conversions c JOIN user_segments us ON c.user_id = us.user_id JOIN
segments s ON us.segment_id = s.id`. -/
def segJoin (db : FactDB) : List (Conversion × UserSegment × Segment) :=
  db.conversions.flatMap fun c =>
    (db.user_segments.filter (fun us => us.user_id == c.user_id)).flatMap
      fun us =>
        (db.segments.filter (fun s => s.id == us.segment_id)).map fun s =>
          (c, us, s)

/-- `GROUP BY DATE(c.timestamp), us.segment_id, s.name`. -/
def segKey (r : Conversion × UserSegment × Segment) : Nat × Nat × String :=
  (r.1.date, r.2.1.segment_id, r.2.2.name)

def segmentPerformance (db : FactDB) : List SegPerfRow :=
  let rows := segJoin db
  (firstKeys (rows.map segKey)).map fun k =>
    let grp := rows.filter (fun r => segKey r == k)
    let conv := distinctCount (grp.map (fun r => r.1.user_id))
    let total := (grp.map (fun r => r.1.value)).sum
    { date := k.1, segment_id := k.2.1, segment_name := k.2.2,
      conversions := conv, total_conversion_value := total,
      avg_conversion_value := avgValue conv total }

/-! ## Materialized view `analytics.segment_cac` -/

structure SegCacRow where
  date : Nat
  segment_id : Nat
  segment_name : String
  cac : ℚ
  deriving Repr, DecidableEq

/-- Joined rows of the `segment_costs` CTE: `user_events e JOIN campaigns ca
ON e.campaign_id = ca.id JOIN user_segments us ON e.user_id = us.user_id
JOIN segments s ON us.segment_id = s.id`. -/
def segCostJoin (db : FactDB) :
    List (Event × Campaign × UserSegment × Segment) :=
  db.events.flatMap fun e =>
    (db.campaigns.filter (fun ca => ca.id == e.campaign_id)).flatMap fun ca =>
      (db.user_segments.filter (fun us => us.user_id == e.user_id)).flatMap
        fun us =>
          (db.segments.filter (fun s => s.id == us.segment_id)).map fun s =>
            (e, ca, us, s)

/-- `GROUP BY DATE(e.timestamp), us.segment_id, s.name, ca.id, ca.spend`. -/
def segCostKey (r : Event × Campaign × UserSegment × Segment) :
    Nat × Nat × String × Nat × ℚ :=
  (r.1.date, r.2.2.1.segment_id, r.2.2.2.name, r.2.1.id, r.2.1.spend)

/-- Output row of the `segment_costs` CTE: `date, segment_id, segment_name,
campaign_id, daily_spend` where `daily_spend = SUM(ca.spend) / 30.0`. -/
structure SegCostRow where
  date : Nat
  segment_id : Nat
  segment_name : String
  campaign_id : Nat
  daily_spend : ℚ
  deriving Repr, DecidableEq

def segmentCosts (db : FactDB) : List SegCostRow :=
  let rows := segCostJoin db
  (firstKeys (rows.map segCostKey)).map fun k =>
    let grp := rows.filter (fun r => segCostKey r == k)
    { date := k.1, segment_id := k.2.1, segment_name := k.2.2.1,
      campaign_id := k.2.2.2.1,
      daily_spend := (grp.map (fun r => r.2.1.spend)).sum / 30 }

/-- Output row of the `segment_acquisitions` CTE. -/
structure SegAcqRow where
  date : Nat
  segment_id : Nat
  acquisitions : Nat
  deriving Repr, DecidableEq

/-- Joined rows of `segment_acquisitions`: `conversions c JOIN user_segments
us ON c.user_id = us.user_id WHERE c.type = purchase`. -/
def segAcqJoin (db : FactDB) : List (Conversion × UserSegment) :=
  (db.conversions.filter (fun c => c.ctype == "purchase")).flatMap fun c =>
    (db.user_segments.filter (fun us => us.user_id == c.user_id)).map
      fun us => (c, us)

/-- `GROUP BY DATE(c.timestamp), us.segment_id`. -/
def segAcqKey (r : Conversion × UserSegment) : Nat × Nat :=
  (r.1.date, r.2.segment_id)

def segmentAcquisitions (db : FactDB) : List SegAcqRow :=
  let rows := segAcqJoin db
  (firstKeys (rows.map segAcqKey)).map fun k =>
    let grp := rows.filter (fun r => segAcqKey r == k)
    { date := k.1, segment_id := k.2,
      acquisitions := distinctCount (grp.map (fun r => r.1.user_id)) }

/-- `LEFT JOIN segment_acquisitions sa ON sc.date = sa.date AND
sc.segment_id = sa.segment_id`, looked up for a cost row; the right side is
grouped, hence key-unique, so `find?` returns the unique match. -/
def segAcqLookup (db : FactDB) (d s : Nat) : Option Nat :=
  ((segmentAcquisitions db).find?
    (fun a => a.date == d && a.segment_id == s)).map (fun a => a.acquisitions)

/-- `CASE WHEN COALESCE(sa.acquisitions, 0) > 0 THEN SUM(sc.daily_spend) /
sa.acquisitions ELSE 0 END`. -/
def cacValue (spendSum : ℚ) (acq : Option Nat) : ℚ :=
  if acq.getD 0 > 0 then spendSum / (acq.getD 0 : ℚ) else 0

/-- Final `GROUP BY sc.date, sc.segment_id, sc.segment_name,
sa.acquisitions` key of `segment_cac`. -/
def segCacFinalKey (db : FactDB) (cr : SegCostRow) :
    Nat × Nat × String × Option Nat :=
  (cr.date, cr.segment_id, cr.segment_name,
    segAcqLookup db cr.date cr.segment_id)

def segmentCAC (db : FactDB) : List SegCacRow :=
  let costs := segmentCosts db
  (firstKeys (costs.map (segCacFinalKey db))).map fun k =>
    let grp := costs.filter (fun cr => segCacFinalKey db cr == k)
    { date := k.1, segment_id := k.2.1, segment_name := k.2.2.1,
      cac := cacValue ((grp.map (fun cr => cr.daily_spend)).sum) k.2.2.2 }

/-! ## Materialized view `analytics.channel_roas` -/

structure ChanRoasRow where
  date : Nat
  channel_id : Nat
  channel_name : String
  roas : ℚ
  deriving Repr, DecidableEq

/-- Joined rows of the `channel_spend` CTE: `user_events e JOIN campaigns ca
ON e.campaign_id = ca.id JOIN channels ch ON e.channel_id = ch.id`. -/
def chanSpendJoin (db : FactDB) : List (Event × Campaign × Channel) :=
  db.events.flatMap fun e =>
    (db.campaigns.filter (fun ca => ca.id == e.campaign_id)).flatMap fun ca =>
      (db.channels.filter (fun ch => ch.id == e.channel_id)).map fun ch =>
        (e, ca, ch)

/-- `GROUP BY DATE(e.timestamp), ch.id, ch.name, ca.spend` — note the key
has `ca.spend` but not `ca.id`. -/
def chanSpendKey (r : Event × Campaign × Channel) : Nat × Nat × String × ℚ :=
  (r.1.date, r.2.2.id, r.2.2.name, r.2.1.spend)

/-- Output row of the `channel_spend` CTE with
`daily_spend = SUM(ca.spend) / 30.0`. -/
structure ChanSpendRow where
  date : Nat
  channel_id : Nat
  channel_name : String
  daily_spend : ℚ
  deriving Repr, DecidableEq

def channelSpend (db : FactDB) : List ChanSpendRow :=
  let rows := chanSpendJoin db
  (firstKeys (rows.map chanSpendKey)).map fun k =>
    let grp := rows.filter (fun r => chanSpendKey r == k)
    { date := k.1, channel_id := k.2.1, channel_name := k.2.2.1,
      daily_spend := (grp.map (fun r => r.2.1.spend)).sum / 30 }

/-- Output row of the `channel_revenue` CTE. -/
structure ChanRevRow where
  date : Nat
  channel_id : Nat
  revenue : ℚ
  deriving Repr, DecidableEq

/-- Joined rows of `channel_revenue`: `conversions c JOIN channels ch ON
c.channel_id = ch.id`. -/
def chanRevJoin (db : FactDB) : List (Conversion × Channel) :=
  db.conversions.flatMap fun c =>
    (db.channels.filter (fun ch => ch.id == c.channel_id)).map fun ch =>
      (c, ch)

/-- `GROUP BY DATE(c.timestamp), ch.id`. -/
def chanRevKey (r : Conversion × Channel) : Nat × Nat :=
  (r.1.date, r.2.id)

def channelRevenue (db : FactDB) : List ChanRevRow :=
  let rows := chanRevJoin db
  (firstKeys (rows.map chanRevKey)).map fun k =>
    let grp := rows.filter (fun r => chanRevKey r == k)
    { date := k.1, channel_id := k.2,
      revenue := (grp.map (fun r => r.1.value)).sum }

/-- `LEFT JOIN channel_revenue cr ON cs.date = cr.date AND cs.channel_id =
cr.channel_id`, looked up for a spend row. -/
def chanRevLookup (db : FactDB) (d c : Nat) : Option ℚ :=
  ((channelRevenue db).find?
    (fun r => r.date == d && r.channel_id == c)).map (fun r => r.revenue)

/-- `CASE WHEN SUM(cs.daily_spend) > 0 THEN COALESCE(cr.revenue, 0) /
SUM(cs.daily_spend) ELSE 0 END`. -/
def roasValue (revenue : Option ℚ) (spendSum : ℚ) : ℚ :=
  if spendSum > 0 then revenue.getD 0 / spendSum else 0

/-- Final `GROUP BY cs.date, cs.channel_id, cs.channel_name, cr.revenue`
key of `channel_roas`. -/
def chanRoasFinalKey (db : FactDB) (sr : ChanSpendRow) :
    Nat × Nat × String × Option ℚ :=
  (sr.date, sr.channel_id, sr.channel_name,
    chanRevLookup db sr.date sr.channel_id)

def channelROAS (db : FactDB) : List ChanRoasRow :=
  let spends := channelSpend db
  (firstKeys (spends.map (chanRoasFinalKey db))).map fun k =>
    let grp := spends.filter (fun sr => chanRoasFinalKey db sr == k)
    { date := k.1, channel_id := k.2.1, channel_name := k.2.2.1,
      roas := roasValue k.2.2.2 ((grp.map (fun sr => sr.daily_spend)).sum) }

/-! ## Views created by `calculate_metrics` in `marketing_etl_dag.py`

The hourly DAG's metrics task issues `CREATE OR REPLACE VIEW` statements
whose formulas differ from the materialized views above; `NULLIF(x, 0)`
makes the divisor SQL `NULL` (hence the whole ratio `NULL`) when it is
zero, so these ratios are `Option ℚ`. -/

/-- `num / NULLIF(den, 0)`: `NULL` when the divisor is zero. -/
def nullifDiv (num den : ℚ) : Option ℚ :=
  if den = 0 then none else some (num / den)

/-- Row of the DAG-created `analytics.segment_cac` view. -/
structure DagSegCacRow where
  segment_id : Nat
  segment_name : String
  date : Nat
  cac : Option ℚ
  deriving Repr, DecidableEq

/-- Joined rows of the DAG `segment_cac` view: `conversions c JOIN
user_segments us ON c.user_id = us.user_id JOIN segments s ON
us.segment_id = s.segment_id JOIN campaigns ca ON c.campaign_id =
ca.campaign_id WHERE c.conversion_type = 'new_customer'`. -/
def dagSegCacJoin (db : FactDB) :
    List (Conversion × UserSegment × Segment × Campaign) :=
  (db.conversions.filter (fun c => c.ctype == "new_customer")).flatMap
    fun c =>
      (db.user_segments.filter (fun us => us.user_id == c.user_id)).flatMap
        fun us =>
          (db.segments.filter (fun s => s.id == us.segment_id)).flatMap
            fun s =>
              (db.campaigns.filter
                (fun ca => ca.id == c.campaign_id)).map fun ca =>
                  (c, us, s, ca)

/-- `GROUP BY s.segment_id, s.segment_name, DATE(c.conversion_timestamp)`. -/
def dagSegCacKey (r : Conversion × UserSegment × Segment × Campaign) :
    Nat × String × Nat :=
  (r.2.2.1.id, r.2.2.1.name, r.1.date)

/-- DAG `segment_cac`: `SUM(ca.spend_to_date) / NULLIF(COUNT(DISTINCT
c.user_id), 0)`. -/
def dagSegmentCac (db : FactDB) : List DagSegCacRow :=
  let rows := dagSegCacJoin db
  (firstKeys (rows.map dagSegCacKey)).map fun k =>
    let grp := rows.filter (fun r => dagSegCacKey r == k)
    { segment_id := k.1, segment_name := k.2.1, date := k.2.2,
      cac := nullifDiv ((grp.map (fun r => r.2.2.2.spend)).sum)
        (distinctCount (grp.map (fun r => r.1.user_id)) : ℚ) }

/-- Row of the DAG-created `analytics.channel_roas` view. -/
structure DagChanRoasRow where
  channel_id : Nat
  channel_name : String
  date : Nat
  roas : Option ℚ
  deriving Repr, DecidableEq

/-- Joined rows of the DAG `channel_roas` view: `conversions c JOIN
campaigns ca ON c.campaign_id = ca.campaign_id JOIN channels ch ON
ca.channel_id = ch.channel_id`. -/
def dagChanRoasJoin (db : FactDB) :
    List (Conversion × Campaign × Channel) :=
  db.conversions.flatMap fun c =>
    (db.campaigns.filter (fun ca => ca.id == c.campaign_id)).flatMap fun ca =>
      (db.channels.filter (fun ch => ch.id == ca.channel_id)).map fun ch =>
        (c, ca, ch)

/-- `GROUP BY ch.channel_id, ch.channel_name, DATE(c.conversion_timestamp)`. -/
def dagChanRoasKey (r : Conversion × Campaign × Channel) :
    Nat × String × Nat :=
  (r.2.2.id, r.2.2.name, r.1.date)

/-- DAG `channel_roas`: `SUM(c.conversion_value) /
NULLIF(SUM(ca.spend_to_date), 0)`. -/
def dagChannelRoas (db : FactDB) : List DagChanRoasRow :=
  let rows := dagChanRoasJoin db
  (firstKeys (rows.map dagChanRoasKey)).map fun k =>
    let grp := rows.filter (fun r => dagChanRoasKey r == k)
    { channel_id := k.1, channel_name := k.2.1, date := k.2.2,
      roas := nullifDiv ((grp.map (fun r => r.1.value)).sum)
        ((grp.map (fun r => r.2.1.spend)).sum) }

/-! ## Hourly extract/transform/load (`marketing_etl_dag.py`) -/

/-- A raw event row as extracted into the pandas batch; `campaign_id` and
`channel_id` are nullable columns, `event_date`/`event_hour` are derived
from the non-null `event_timestamp`. -/
structure RawEvent where
  event_id : Nat
  user_id : String
  event_name : String
  event_date : Nat
  event_hour : Nat
  campaign_id : Option Nat
  channel_id : Option Nat
  deriving Repr, DecidableEq

/-- The pandas `groupby` key `[campaign_id, channel_id, event_date,
event_hour, event_name]`; `none` when any key is missing (pandas
`groupby` drops rows with a NaN key). -/
def etlKey (r : RawEvent) : Option (Nat × Nat × Nat × Nat × String) :=
  match r.campaign_id, r.channel_id with
  | some ca, some ch =>
      some (ca, ch, r.event_date, r.event_hour, r.event_name)
  | _, _ => none

/-- An aggregated hourly bucket as inserted into
`analytics.hourly_events`. -/
structure HourlyRow where
  campaign_id : Nat
  channel_id : Nat
  event_date : Nat
  event_hour : Nat
  event_name : String
  unique_users : Nat
  event_count : Nat
  deriving Repr, DecidableEq

/-- `transform_events_data`: bucket by `(campaign_id, channel_id,
event_date, event_hour, event_name)` with `unique_users =
nunique(user_id)` and `event_count = count(event_id)` (every `event_id`
is present, so the count is the group size). -/
def transformEventsData (batch : List RawEvent) : List HourlyRow :=
  let rows := batch.filterMap (fun r => (etlKey r).map (fun k => (k, r)))
  (firstKeys (rows.map Prod.fst)).map fun k =>
    let grp := rows.filter (fun p => p.1 == k)
    { campaign_id := k.1, channel_id := k.2.1, event_date := k.2.2.1,
      event_hour := k.2.2.2.1, event_name := k.2.2.2.2,
      unique_users := distinctCount (grp.map (fun p => p.2.user_id)),
      event_count := grp.length }

/-- `load_events_data`: one plain `INSERT INTO analytics.hourly_events`
per transformed row (the table has a `SERIAL` surrogate key and no
uniqueness constraint on the bucket key), starting from the existing
table contents. -/
def loadEventsData (table : List HourlyRow) (df : List HourlyRow) :
    List HourlyRow :=
  df.foldl (fun t r => t ++ [r]) table

/-- Number of rows of `analytics.hourly_events` carrying a given
`(campaign_id, channel_id, event_date, event_hour, event_name)` key. -/
def hourlyKeyCount (table : List HourlyRow)
    (k : Nat × Nat × Nat × Nat × String) : Nat :=
  table.countP fun r =>
    (r.campaign_id, r.channel_id, r.event_date, r.event_hour,
      r.event_name) == k

/-! ## KPI summarizer (`generate_kpi_summary` in `mock_server.py`) -/

/-- Python `round(x, 2)`: round to the nearest multiple of `1/100`
(Mathlib `round`; the rounding direction at exact ties is irrelevant to
every statement below). -/
def round2 (q : ℚ) : ℚ :=
  (round (q * 100) : ℤ) / 100

/-- The four headline KPI figures (the fabricated random `_change` demo
fields of the mock server are non-deterministic scaffolding and are not
part of the summary modelled here). -/
structure KpiSummary where
  cac : ℚ
  clv : ℚ
  roas : ℚ
  conversion_rate : ℚ
  deriving Repr, DecidableEq

def generateKpiSummary (segCac : List SegCacRow) (campPerf : List CampPerfRow)
    (chanRoas : List ChanRoasRow) (chanPerf : List ChanPerfRow) :
    KpiSummary :=
  let cacValues := segCac.map (fun r => r.cac)
  let convValues := campPerf.map (fun r => r.avg_conversion_value)
  let roasValues := chanRoas.map (fun r => r.roas)
  { cac :=
      if cacValues.length > 0 then
        round2 (cacValues.sum / (cacValues.length : ℚ))
      else 0,
    clv :=
      if convValues.length > 0 then
        round2 (convValues.sum / (convValues.length : ℚ) * 3)
      else 0,
    roas :=
      if roasValues.length > 0 then
        round2 (roasValues.sum / (roasValues.length : ℚ))
      else 0,
    conversion_rate :=
      if chanPerf.length > 0 ∧ campPerf.length > 0 then
        let totalClicks : Nat := (chanPerf.map (fun r => r.clicks)).sum
        let totalConversions : Nat :=
          (campPerf.map (fun r => r.conversions)).sum
        if totalClicks > 0 then
          round2 ((totalConversions : ℚ) / (totalClicks : ℚ) * 100)
        else 0
      else 0 }

/-! ## Serving layer -/

/-- One bundle of the five aggregate result lists.  `aggregateViews`
below returns them raw; `models/database.get_metrics` serves them
filtered and ordered. -/
structure MetricsBundle where
  campaign_performance : List CampPerfRow
  channel_performance : List ChanPerfRow
  segment_performance : List SegPerfRow
  segment_cac : List SegCacRow
  channel_roas : List ChanRoasRow
  deriving Repr, DecidableEq

/-- The five materialized views computed over one fact database — the
full output of `create_materialized_views` (and of the refresh step). -/
def aggregateViews (db : FactDB) : MetricsBundle :=
  { campaign_performance := dailyCampaignPerformance db,
    channel_performance := dailyChannelPerformance db,
    segment_performance := segmentPerformance db,
    segment_cac := segmentCAC db,
    channel_roas := channelROAS db }

/-- Lexicographic `ORDER BY date, entity_id` comparison on `(date,
entity)` keys. -/
def keyLeb (a b : Nat × Nat) : Bool :=
  a.1 < b.1 || (a.1 == b.1 && a.2 ≤ b.2)

/-- Insert into a sorted list (insertion-sort step). -/
def insertRow {α : Type} (le : α → α → Bool) (x : α) : List α → List α
  | [] => [x]
  | y :: ys => if le x y then x :: y :: ys else y :: insertRow le x ys

/-- Insertion sort, embedding SQL `ORDER BY`. -/
def sortRows {α : Type} (le : α → α → Bool) : List α → List α
  | [] => []
  | x :: xs => insertRow le x (sortRows le xs)

/-- `WHERE date BETWEEN :start_date AND :end_date`. -/
def inWindow (sd ed d : Nat) : Bool :=
  sd ≤ d && d ≤ ed

/-- The optional `AND channel_id = :channel_id` / `AND segment_id =
:segment_id` predicate; Python appends it only when the parameter is
truthy (`None` and `0` both skip the filter). -/
def optFilter (o : Option Nat) (v : Nat) : Bool :=
  match o with
  | none => true
  | some c => if c == 0 then true else v == c

/-- `models/database.get_metrics`: the five `SELECT ... WHERE date BETWEEN
... ORDER BY date, <entity_id>` queries over the aggregate views. -/
def dbGetMetrics (db : FactDB) (sd ed : Nat) (chOpt segOpt : Option Nat) :
    MetricsBundle :=
  { campaign_performance :=
      sortRows (fun a b => keyLeb (a.date, a.campaign_id) (b.date, b.campaign_id))
        ((dailyCampaignPerformance db).filter
          (fun r => inWindow sd ed r.date && optFilter chOpt r.channel_id)),
    channel_performance :=
      sortRows (fun a b => keyLeb (a.date, a.channel_id) (b.date, b.channel_id))
        ((dailyChannelPerformance db).filter
          (fun r => inWindow sd ed r.date && optFilter chOpt r.channel_id)),
    segment_performance :=
      sortRows (fun a b => keyLeb (a.date, a.segment_id) (b.date, b.segment_id))
        ((segmentPerformance db).filter
          (fun r => inWindow sd ed r.date && optFilter segOpt r.segment_id)),
    segment_cac :=
      sortRows (fun a b => keyLeb (a.date, a.segment_id) (b.date, b.segment_id))
        ((segmentCAC db).filter
          (fun r => inWindow sd ed r.date && optFilter segOpt r.segment_id)),
    channel_roas :=
      sortRows (fun a b => keyLeb (a.date, a.channel_id) (b.date, b.channel_id))
        ((channelROAS db).filter
          (fun r => inWindow sd ed r.date && optFilter chOpt r.channel_id)) }

/-- The keys of the result dictionary built by
`models/database.get_metrics`, in construction order. -/
def dbMetricsFields : List String :=
  ["campaign_performance", "channel_performance", "segment_performance",
   "segment_cac", "channel_roas"]

/-- The keys of the result dictionary built by the mock server's
`/metrics/` endpoint, in construction order. -/
def mockMetricsFields : List String :=
  ["campaign_performance", "channel_performance", "segment_performance",
   "segment_cac", "channel_roas", "kpi_summary"]

/-- The six claimed fields of the serving interface. -/
def specMetricsFields : List String :=
  ["campaign_performance", "channel_performance", "segment_performance",
   "segment_cac", "channel_roas", "kpi_summary"]

/-- `start_date`/`end_date` defaulting shared by the mock server's
`/metrics/` endpoint and the FastAPI routes of `api/main.py`: a missing
start is `today - 30 days`, a missing end is `today`. -/
def defaultWindow (today : Nat) (sdOpt edOpt : Option Nat) : Nat × Nat :=
  (sdOpt.getD (today - 30), edOpt.getD today)

/-- The full result of the mock server's `/metrics/` endpoint: the
defaulted window, the five filtered (but unordered — the queries carry no
`ORDER BY`) view lists, plus the KPI summary computed from them. -/
structure MockMetrics where
  campaign_performance : List CampPerfRow
  channel_performance : List ChanPerfRow
  segment_performance : List SegPerfRow
  segment_cac : List SegCacRow
  channel_roas : List ChanRoasRow
  kpi_summary : KpiSummary
  deriving Repr, DecidableEq

def mockGetMetrics (db : FactDB) (today : Nat)
    (sdOpt edOpt chOpt segOpt : Option Nat) : MockMetrics :=
  let w := defaultWindow today sdOpt edOpt
  let campaign := (dailyCampaignPerformance db).filter
    (fun r => inWindow w.1 w.2 r.date && optFilter chOpt r.channel_id)
  let channel := (dailyChannelPerformance db).filter
    (fun r => inWindow w.1 w.2 r.date && optFilter chOpt r.channel_id)
  let segment := (segmentPerformance db).filter
    (fun r => inWindow w.1 w.2 r.date && optFilter segOpt r.segment_id)
  let cac := (segmentCAC db).filter
    (fun r => inWindow w.1 w.2 r.date && optFilter segOpt r.segment_id)
  let roas := (channelROAS db).filter
    (fun r => inWindow w.1 w.2 r.date && optFilter chOpt r.channel_id)
  { campaign_performance := campaign, channel_performance := channel,
    segment_performance := segment, segment_cac := cac,
    channel_roas := roas,
    kpi_summary := generateKpiSummary cac campaign roas channel }

/-! ## Generic lemmas about the grouping and serving machinery -/

theorem firstKeys_nil {α : Type} [DecidableEq α] : firstKeys ([] : List α) = [] := by
  simp [firstKeys]

theorem filter_firstKeys {α : Type} [DecidableEq α] (p : α → Bool)
    (l : List α) : (firstKeys l).filter p = firstKeys (l.filter p) := by
  induction l with
  | nil => rfl
  | cons x xs ih =>
    by_cases hp : p x
    · rw [firstKeys, List.filter_cons_of_pos hp,
        List.filter_cons_of_pos hp, firstKeys, ← ih,
        List.filter_filter, List.filter_filter]
      congr 1
      apply List.filter_congr
      intro y _
      exact Bool.and_comm _ _
    · rw [firstKeys, List.filter_cons_of_neg hp,
        List.filter_cons_of_neg hp, ← ih, List.filter_filter]
      apply List.filter_congr
      intro y _
      by_cases hyx : y = x
      · subst hyx
        simp [hp]
      · simp [hyx]

theorem firstKeys_cons {α : Type} [DecidableEq α] (x : α) (xs : List α) :
    firstKeys (x :: xs) = x :: firstKeys (xs.filter (fun y => y ≠ x)) := by
  rw [firstKeys, filter_firstKeys]

theorem mem_firstKeys {α : Type} [DecidableEq α] (a : α) (l : List α) :
    a ∈ firstKeys l ↔ a ∈ l := by
  induction l with
  | nil => simp [firstKeys]
  | cons x xs ih =>
    simp only [firstKeys, List.mem_cons, List.mem_filter, ih]
    by_cases hax : a = x
    · simp [hax]
    · simp [hax]

theorem nodup_firstKeys {α : Type} [DecidableEq α] (l : List α) :
    (firstKeys l).Nodup := by
  induction l with
  | nil => simp [firstKeys]
  | cons x xs ih =>
    rw [firstKeys]
    refine List.nodup_cons.mpr ⟨fun hx => ?_, ih.filter _⟩
    have := List.mem_filter.mp hx
    simp at this

theorem distinctCount_eq_card {α : Type} [DecidableEq α] (l : List α) :
    distinctCount l = l.toFinset.card := by
  unfold distinctCount
  have h1 : (firstKeys l).toFinset = l.toFinset := by
    ext a
    simp [List.mem_toFinset, mem_firstKeys]
  rw [← h1, List.toFinset_card_of_nodup (nodup_firstKeys l)]

theorem sum_split_filter {α M : Type} [AddCommMonoid M] (p q : α → Bool)
    (g : α → M) (l : List α) :
    ((l.filter p).map g).sum =
      (((l.filter (fun x => p x && q x)).map g).sum) +
        (((l.filter (fun x => p x && !q x)).map g).sum) := by
  induction l with
  | nil => simp
  | cons x xs ih =>
    by_cases hp : p x
    · by_cases hq : q x
      · simp [List.filter_cons, hp, hq, ih, add_assoc]
      · simp [List.filter_cons, hp, hq, ih, add_left_comm]
    · simp [List.filter_cons, hp, ih]

theorem filter_key_of_ne {α κ : Type} [BEq κ] [LawfulBEq κ] [DecidableEq κ]
    (key : α → κ)
    (k k0 : κ) (hk : k ≠ k0) (xs : List α) :
    (xs.filter (fun y => key y ≠ k0)).filter (fun y => key y == k) =
      xs.filter (fun y => key y == k) := by
  rw [List.filter_filter]
  apply List.filter_congr
  intro y _
  by_cases h : key y = k
  · simp [h, hk]
  · simp [h]

theorem sum_over_groups {α κ M : Type} [BEq κ] [LawfulBEq κ] [DecidableEq κ]
    [AddCommMonoid M]
    (key : α → κ) (P : κ → Bool) (g : α → M) :
    ∀ (l : List α),
      (((firstKeys (l.map key)).filter P).map
        (fun k => ((l.filter (fun x => key x == k)).map g).sum)).sum
      = ((l.filter (fun x => P (key x))).map g).sum
  | [] => by simp [firstKeys]
  | x :: xs => by
    have hmapfilter :
        ((xs.map key).filter (fun y => y ≠ key x)) =
          (xs.filter (fun y => key y ≠ key x)).map key := by
      rw [List.filter_map]
      rfl
    have ih := sum_over_groups key P g (xs.filter (fun y => key y ≠ key x))
    have htail :
        ((firstKeys ((xs.filter (fun y => key y ≠ key x)).map key)).filter
            P).map
          (fun k => (((x :: xs).filter (fun y => key y == k)).map g).sum) =
        ((firstKeys ((xs.filter (fun y => key y ≠ key x)).map key)).filter
            P).map
          (fun k =>
            (((xs.filter (fun y => key y ≠ key x)).filter
              (fun y => key y == k)).map g).sum) := by
      apply List.map_congr_left
      intro k hk
      have hkmem : k ∈ (xs.filter (fun y => key y ≠ key x)).map key :=
        (mem_firstKeys _ _).mp (List.mem_of_mem_filter hk)
      have hkne : k ≠ key x := by
        rcases List.mem_map.mp hkmem with ⟨y, hy, hkey⟩
        have := List.of_mem_filter hy
        simp at this
        exact fun hcon => this (hkey ▸ hcon.symm ▸ rfl)
      rw [List.filter_cons, filter_key_of_ne key k (key x) hkne xs]
      simp [Ne.symm hkne, beq_iff_eq]
    have hsplit := sum_split_filter (fun y => P (key y))
      (fun y => key y == key x) g xs
    have h2 : xs.filter (fun y => P (key y) && !(key y == key x)) =
        (xs.filter (fun y => key y ≠ key x)).filter
          (fun y => P (key y)) := by
      rw [List.filter_filter]
      apply List.filter_congr
      intro y _
      by_cases h : key y = key x
      · simp [h]
      · simp [h]
    rw [List.map_cons, firstKeys_cons, hmapfilter]
    by_cases hP : P (key x)
    · have h1 : xs.filter (fun y => P (key y) && (key y == key x)) =
          xs.filter (fun y => key y == key x) := by
        apply List.filter_congr
        intro y _
        by_cases h : key y = key x
        · simp [h, hP]
        · simp [h]
      rw [List.filter_cons_of_pos (by simpa using hP), List.map_cons,
        List.sum_cons, htail, ih,
        @List.filter_cons_of_pos _ (fun y => key y == key x) x xs (by simp),
        List.map_cons, List.sum_cons,
        List.filter_cons_of_pos (by simpa using hP), List.map_cons,
        List.sum_cons, hsplit, h1, h2]
      abel
    · have h1 : xs.filter (fun y => P (key y) && (key y == key x)) = [] := by
        apply List.filter_eq_nil_iff.mpr
        intro y _
        by_cases h : key y = key x
        · simp [h, hP]
        · simp [h]
      rw [List.filter_cons_of_neg (by simpa using hP), htail, ih,
        List.filter_cons_of_neg (by simpa using hP), hsplit, h1, h2]
      simp
  termination_by l => l.length
  decreasing_by simpa using Nat.lt_succ_of_le (List.length_filter_le _ _)

theorem chain'_insertRow {α : Type} (le : α → α → Bool)
    (htot : ∀ a b, le a b = false → le b a = true) (x : α) :
    ∀ (l : List α), List.Chain' (fun a b => le a b = true) l →
      List.Chain' (fun a b => le a b = true) (insertRow le x l)
  | [], _ => List.chain'_singleton x
  | y :: ys, h => by
    unfold insertRow
    by_cases hxy : le x y
    · rw [if_pos hxy]
      exact List.chain'_cons.mpr ⟨hxy, h⟩
    · rw [if_neg hxy]
      have hyx : le y x = true := htot x y (by simpa using hxy)
      have hys := (List.chain'_cons'.mp h).2
      have hrec := chain'_insertRow le htot x ys hys
      apply List.chain'_cons'.mpr
      refine ⟨?_, hrec⟩
      intro z hz
      cases ys with
      | nil =>
        simp [insertRow] at hz
        subst hz
        exact hyx
      | cons w ws =>
        unfold insertRow at hz
        by_cases hxw : le x w
        · rw [if_pos hxw] at hz
          simp at hz
          subst hz
          exact hyx
        · rw [if_neg hxw] at hz
          simp at hz
          subst hz
          exact (List.chain'_cons.mp h).1

theorem chain'_sortRows {α : Type} (le : α → α → Bool)
    (htot : ∀ a b, le a b = false → le b a = true) :
    ∀ l : List α, List.Chain' (fun a b => le a b = true) (sortRows le l)
  | [] => List.chain'_nil
  | x :: xs => chain'_insertRow le htot x _ (chain'_sortRows le htot xs)

theorem keyLeb_total (a b : Nat × Nat) :
    keyLeb a b = false → keyLeb b a = true := by
  simp only [keyLeb, Bool.or_eq_false_iff, Bool.or_eq_true,
    Bool.and_eq_false_iff, Bool.and_eq_true, decide_eq_false_iff_not,
    decide_eq_true_eq, beq_iff_eq, beq_eq_false_iff_ne]
  omega

/-! ## Spec-side comparison definitions and concrete fixtures -/

/-- The CAC formula as the specification words it (to compare with the
code's `segmentCAC`): the campaigns whose events touched the segment on the
date — an event by a user belonging to the segment, attributed to the
campaign. -/
def specTouchingCampaigns (db : FactDB) (d s : Nat) : List Campaign :=
  db.campaigns.filter fun ca =>
    db.events.any fun e =>
      e.campaign_id == ca.id && e.date == d &&
        db.user_segments.any fun us =>
          us.user_id == e.user_id && us.segment_id == s

/-- The specification's CAC denominator: count of distinct users of the
segment with a `purchase` conversion on the date. -/
def specPurchaseUsers (db : FactDB) (d s : Nat) : Nat :=
  distinctCount ((db.conversions.filter fun c =>
    c.ctype == "purchase" && c.date == d &&
      db.user_segments.any fun us =>
        us.user_id == c.user_id && us.segment_id == s).map fun c => c.user_id)

/-- The claimed CAC value: sum of `spend_to_date / 30` over touching
campaigns (each campaign once) divided by the distinct purchasing users,
`0` when that count is `0`.  Stated from the specification's words, for
comparison with the view. -/
def specSegmentCacValue (db : FactDB) (d s : Nat) : ℚ :=
  let den := specPurchaseUsers db d s
  if den > 0 then
    ((specTouchingCampaigns db d s).map (fun ca => ca.spend / 30)).sum / den
  else 0

/-- The `cac` of the `segment_cac` row keyed `(d, s)`, when present. -/
def cacLookup (db : FactDB) (d s : Nat) : Option ℚ :=
  ((segmentCAC db).find?
    (fun r => r.date == d && r.segment_id == s)).map (fun r => r.cac)

/-- Fixture: one campaign of spend 30, one user in one segment, two events
by that user for the campaign on day 1, one purchase conversion that day. -/
def twoEventsDb : FactDB :=
  { channels := [⟨1, "Facebook Ads", "Social"⟩],
    segments := [⟨1, "New Visitors"⟩],
    campaigns := [⟨1, "Spring Campaign", 1, 30⟩],
    user_segments := [⟨"user_1", 1⟩],
    events := [⟨1, "user_1", "click", 1, 1, 1⟩,
               ⟨2, "user_1", "click", 1, 1, 1⟩],
    conversions := [⟨1, "user_1", "purchase", 100, 1, 1, 1⟩] }

/-- Claim C1, counterexample: on `twoEventsDb` the view's CAC for day 1,
segment 1 is `2` — the campaign's `spend/30 = 1` is summed once per
touching event row (`SUM(ca.spend)/30` under a `GROUP BY` that includes
`ca.spend`) — while the claimed formula (each touching campaign counted
once) gives `1`. -/
theorem c1_counterexample :
    cacLookup twoEventsDb 1 1 = some 2 ∧
    specSegmentCacValue twoEventsDb 1 1 = 1 ∧ (2 : ℚ) ≠ 1 := by
  refine ⟨?_, ?_, by norm_num⟩
  · norm_num [cacLookup, segmentCAC, segmentCosts, segCostJoin, segCostKey,
      firstKeys, segCacFinalKey, segAcqLookup, segmentAcquisitions,
      segAcqJoin, segAcqKey, cacValue, distinctCount, List.find?, twoEventsDb]
  · norm_num [specSegmentCacValue, specPurchaseUsers, specTouchingCampaigns,
      distinctCount, firstKeys, twoEventsDb]

/-- Fixture: campaign 1 with two same-day conversions of values 50 and 70
made by the same user. -/
def sameUserPairDb : FactDB :=
  { channels := [⟨1, "Facebook Ads", "Social"⟩],
    segments := [],
    campaigns := [⟨1, "Spring Campaign", 1, 30⟩],
    user_segments := [],
    events := [],
    conversions := [⟨1, "user_1", "purchase", 50, 7, 1, 1⟩,
                    ⟨2, "user_1", "purchase", 70, 7, 1, 1⟩] }

/-- Claim C6, counterexample: two same-day conversions of values 50 and 70
for campaign 1 made by one user yield the row
`{conversions := 1, total := 120, avg := 120}` — `conversions` counts
distinct users, so the claimed `{2, 120, 60}` is wrong for this fact
set. -/
theorem c6_counterexample :
    dailyCampaignPerformance sameUserPairDb =
      [⟨7, 1, "Spring Campaign", 1, "Facebook Ads", 1, 120, 120⟩] := by
  norm_num [dailyCampaignPerformance, campJoin, campKey, firstKeys,
    distinctCount, avgValue, sameUserPairDb]

/-- Claim C6 (amended): in a fact set whose conversions are exactly two
same-day conversions of values 50 and 70 for campaign 1 made by two
DISTINCT users, where campaign 1 exists and references an existing
channel, the `campaign_performance` row is
`{conversions := 2, total_conversion_value := 120,
avg_conversion_value := 60}`. -/
theorem c6_amended (ch : Channel) (ca : Campaign) (d i1 i2 cid1 cid2 : Nat)
    (u1 u2 : String) (segs : List Segment) (uss : List UserSegment)
    (evs : List Event) (hch : ca.channel_id = ch.id) (hid : ca.id = 1)
    (hu : u1 ≠ u2) :
    dailyCampaignPerformance
      { channels := [ch], segments := segs, campaigns := [ca],
        user_segments := uss, events := evs,
        conversions := [⟨i1, u1, "purchase", 50, d, 1, cid1⟩,
                        ⟨i2, u2, "purchase", 70, d, 1, cid2⟩] } =
      [{ date := d, campaign_id := 1, campaign_name := ca.name,
         channel_id := ch.id, channel_name := ch.name,
         conversions := 2, total_conversion_value := 120,
         avg_conversion_value := 60 }] := by
  norm_num [dailyCampaignPerformance, campJoin, campKey, firstKeys,
    distinctCount, avgValue, hch, hid, Ne.symm hu]

/-- Claim C6, witness: the amended theorem applied at a concrete channel,
campaign, day and pair of distinct users. -/
theorem c6_witness :
    dailyCampaignPerformance
      { channels := [⟨1, "Facebook Ads", "Social"⟩], segments := [],
        campaigns := [⟨1, "Spring Campaign", 1, 30⟩], user_segments := [],
        events := [],
        conversions := [⟨1, "user_1", "purchase", 50, 7, 1, 1⟩,
                        ⟨2, "user_2", "purchase", 70, 7, 1, 1⟩] } =
      [{ date := 7, campaign_id := 1, campaign_name := "Spring Campaign",
         channel_id := 1, channel_name := "Facebook Ads",
         conversions := 2, total_conversion_value := 120,
         avg_conversion_value := 60 }] :=
  c6_amended ⟨1, "Facebook Ads", "Social"⟩ ⟨1, "Spring Campaign", 1, 30⟩
    7 1 2 1 1 "user_1" "user_2" [] [] [] rfl rfl (by decide)

/-- Fixture: a conversion attributed to a campaign whose `spend_to_date`
is `0`. -/
def zeroSpendDb : FactDB :=
  { channels := [⟨1, "Google Ads", "Search"⟩],
    segments := [],
    campaigns := [⟨1, "Zero Spend Campaign", 1, 0⟩],
    user_segments := [],
    events := [],
    conversions := [⟨1, "user_1", "purchase", 100, 3, 1, 1⟩] }

/-- Claim C2, counterexample: in the DAG-created `channel_roas` view,
`SUM(conversion_value) / NULLIF(SUM(spend_to_date), 0)` is SQL `NULL`
(not `0`) when the attributed spend sums to `0`. -/
theorem c2_counterexample :
    dagChannelRoas zeroSpendDb =
      [⟨1, "Google Ads", 3, none⟩] ∧ (none : Option ℚ) ≠ some 0 := by
  refine ⟨?_, by simp⟩
  norm_num [dagChannelRoas, dagChanRoasJoin, dagChanRoasKey, firstKeys,
    nullifDiv, zeroSpendDb]

/-- Claim C2 (amended): in the five materialized views every ratio —
`avg_conversion_value`, `ctr`, `cac`, `roas` — is `0` when its denominator
is `0` (or, for the left joins, missing); in the DAG-created views the
`NULLIF` divisor makes the ratio SQL `NULL` on a zero denominator
instead. -/
theorem c2_amended :
    (∀ total : ℚ, avgValue 0 total = 0) ∧
    (∀ clicks : Nat, ctrValue clicks 0 = 0) ∧
    (∀ spendSum : ℚ, cacValue spendSum none = 0) ∧
    (∀ spendSum : ℚ, cacValue spendSum (some 0) = 0) ∧
    (∀ revenue : Option ℚ, roasValue revenue 0 = 0) ∧
    (∀ num : ℚ, nullifDiv num 0 = none) := by
  refine ⟨?_, ?_, ?_, ?_, ?_, ?_⟩ <;>
    intro x <;>
      simp [avgValue, ctrValue, cacValue, roasValue, nullifDiv]

/-- Row-by-row insertion is list append. -/
theorem loadEventsData_eq_append (table df : List HourlyRow) :
    loadEventsData table df = table ++ df := by
  induction df generalizing table with
  | nil => simp [loadEventsData]
  | cons r rs ih =>
    have h : loadEventsData table (r :: rs) =
        loadEventsData (table ++ [r]) rs := rfl
    rw [h, ih]
    simp

/-- Claim C4 (amended): the load stage appends its rows with plain
`INSERT`s — `hourly_events` has no uniqueness constraint on
`(campaign_id, channel_id, date, hour, event_name)` — so re-running the
loader for an already-loaded hour duplicates rows: every key's row count
grows by twice the slice's count instead of staying put. -/
theorem c4_amended (table df : List HourlyRow)
    (k : Nat × Nat × Nat × Nat × String) :
    loadEventsData table df = table ++ df ∧
    hourlyKeyCount (loadEventsData (loadEventsData table df) df) k =
      hourlyKeyCount table k + 2 * hourlyKeyCount df k := by
  refine ⟨loadEventsData_eq_append table df, ?_⟩
  rw [loadEventsData_eq_append, loadEventsData_eq_append]
  simp [hourlyKeyCount, List.countP_append]
  ring

/-- One transformed hourly bucket. -/
def sampleHourlyRow : HourlyRow := ⟨1, 1, 1, 10, "click", 2, 3⟩

/-- Claim C4, counterexample: loading the same transformed slice twice
changes the durable table — the bucket key ends up with two rows — so the
load is not an upsert and re-runs are not idempotent. -/
theorem c4_counterexample :
    loadEventsData (loadEventsData [] [sampleHourlyRow]) [sampleHourlyRow] ≠
      loadEventsData [] [sampleHourlyRow] ∧
    hourlyKeyCount
      (loadEventsData (loadEventsData [] [sampleHourlyRow])
        [sampleHourlyRow]) (1, 1, 1, 10, "click") = 2 := by
  constructor
  · simp only [loadEventsData_eq_append]
    simp [sampleHourlyRow]
  · rw [loadEventsData_eq_append, loadEventsData_eq_append]
    simp [hourlyKeyCount, sampleHourlyRow]

/-- The simple arithmetic mean the specification speaks of. -/
def listMean (l : List ℚ) : ℚ := l.sum / l.length

/-- Claim C5, counterexample: for a single `segment_cac` row of value
`1/3`, the code's KPI `cac` is `round(1/3, 2) = 33/100`, not the exact
mean `1/3` — the summary rounds every figure to two decimals. -/
theorem c5_counterexample :
    (generateKpiSummary [⟨1, 1, "New Visitors", 1/3⟩] [] [] []).cac =
      33/100 ∧
    listMean (([⟨1, 1, "New Visitors", 1/3⟩] : List SegCacRow).map
      (fun r => r.cac)) = 1/3 ∧
    ((33 : ℚ)/100) ≠ 1/3 := by
  refine ⟨?_, by norm_num [listMean], by norm_num⟩
  norm_num [generateKpiSummary, round2, round_eq]

/-- Claim C5 (amended): each headline KPI equals the claimed formula —
`cac` the unweighted mean of `segment_cac.cac`, `clv` three times the mean
`avg_conversion_value`, `roas` the mean of `channel_roas.roas`,
`conversion_rate` total conversions over total clicks times 100 — but
ROUNDED to two decimal places, and `0` whenever its input aggregate list
is empty (for `conversion_rate`, whenever total clicks is `0` or there are
no campaign rows). -/
theorem c5_amended (segCac : List SegCacRow) (campPerf : List CampPerfRow)
    (chanRoas : List ChanRoasRow) (chanPerf : List ChanPerfRow) :
    (generateKpiSummary segCac campPerf chanRoas chanPerf).cac =
      (if segCac ≠ [] then round2 (listMean (segCac.map (fun r => r.cac)))
       else 0) ∧
    (generateKpiSummary segCac campPerf chanRoas chanPerf).clv =
      (if campPerf ≠ [] then
        round2 (3 * listMean (campPerf.map (fun r => r.avg_conversion_value)))
       else 0) ∧
    (generateKpiSummary segCac campPerf chanRoas chanPerf).roas =
      (if chanRoas ≠ [] then
        round2 (listMean (chanRoas.map (fun r => r.roas))) else 0) ∧
    (generateKpiSummary segCac campPerf chanRoas chanPerf).conversion_rate =
      (if 0 < (chanPerf.map (fun r => r.clicks)).sum ∧ campPerf ≠ [] then
        round2 ((((campPerf.map (fun r => r.conversions)).sum : Nat) : ℚ) /
          (((chanPerf.map (fun r => r.clicks)).sum : Nat) : ℚ) * 100)
       else 0) := by
  refine ⟨?_, ?_, ?_, ?_⟩
  · by_cases h : segCac = []
    · simp [generateKpiSummary, h]
    · simp [generateKpiSummary, listMean, h, List.length_pos.mpr h]
  · by_cases h : campPerf = []
    · simp [generateKpiSummary, h]
    · simp only [generateKpiSummary, listMean, h, List.length_map,
        List.length_pos.mpr h, if_pos, ne_eq, not_false_eq_true, if_true]
      rw [mul_comm]
  · by_cases h : chanRoas = []
    · simp [generateKpiSummary, h]
    · simp [generateKpiSummary, listMean, h, List.length_pos.mpr h]
  · simp only [generateKpiSummary]
    by_cases hch : chanPerf = []
    · simp [hch]
    · by_cases hca : campPerf = []
      · simp [hca]
      · by_cases hcl : 0 < (chanPerf.map (fun r => r.clicks)).sum
        · rw [if_pos ⟨List.length_pos.mpr hch, List.length_pos.mpr hca⟩,
            if_pos hcl, if_pos ⟨hcl, hca⟩]
        · rw [if_pos ⟨List.length_pos.mpr hch, List.length_pos.mpr hca⟩,
            if_neg hcl, if_neg (fun hcon => hcl hcon.1)]

/-- Claim C9, counterexample: the result dictionary of
`models/database.get_metrics` (served by `api/main.py`) carries only the
five aggregate lists — `kpi_summary` is not among its keys — so not every
`get_metrics` returns the six claimed fields. -/
theorem c9_counterexample :
    dbMetricsFields ≠ specMetricsFields ∧
    "kpi_summary" ∉ dbMetricsFields := by
  decide

/-- Claim C9 (amended): the mock server's `/metrics/` endpoint returns
exactly the six claimed fields and defaults a missing `start_date` to
`today - 30` days and a missing `end_date` to `today`;
`models/database.get_metrics` (behind `api/main.py`, which applies the
same date defaulting) returns only the first five fields, without
`kpi_summary`. -/
theorem c9_amended (today sd ed : Nat) :
    mockMetricsFields = specMetricsFields ∧
    defaultWindow today none none = (today - 30, today) ∧
    defaultWindow today (some sd) (some ed) = (sd, ed) ∧
    dbMetricsFields = specMetricsFields.take 5 := by
  refine ⟨rfl, rfl, rfl, rfl⟩

/-- A batch with two complete rows and one row whose `campaign_id` is
missing. -/
def nullKeyBatch : List RawEvent :=
  [⟨1, "user_1", "click", 1, 10, some 1, some 1⟩,
   ⟨2, "user_2", "click", 1, 10, some 1, some 1⟩,
   ⟨3, "user_3", "click", 1, 10, none, some 1⟩]

/-- Claim C10: the transform stage's buckets count exactly the batch rows
whose grouping keys are all present — pandas `groupby` silently drops any
row with a missing `campaign_id` or `channel_id` — so the summed
`event_count` equals the count of rows with both keys non-null, which is
strictly below the batch size whenever such a row exists (witnessed by
`nullKeyBatch`). -/
theorem c10_transform (batch : List RawEvent) :
    ((transformEventsData batch).map (fun b => b.event_count)).sum =
      batch.countP
        (fun r => r.campaign_id.isSome && r.channel_id.isSome) ∧
    ((transformEventsData nullKeyBatch).map
        (fun b => b.event_count)).sum < nullKeyBatch.length := by
  constructor
  · have hrows : ∀ (rows : List ((Nat × Nat × Nat × Nat × String) × RawEvent)),
        ((firstKeys (rows.map Prod.fst)).map
          (fun k => (rows.filter (fun p => p.1 == k)).length)).sum =
          rows.length := by
      intro rows
      have h := sum_over_groups (Prod.fst) (fun _ => true)
        (fun _ => (1 : ℕ)) rows
      simp only [List.filter_true] at h
      have hlen : ∀ (l : List ((Nat × Nat × Nat × Nat × String) × RawEvent)),
          (l.map (fun _ => (1 : ℕ))).sum = l.length := by
        intro l
        induction l with
        | nil => rfl
        | cons a as ih => simp [ih, Nat.add_comm]
      rw [← hlen rows, ← h]
      congr 1
      apply List.map_congr_left
      intro k _
      rw [hlen]
    have hcount :
        (batch.filterMap
          (fun r => (etlKey r).map (fun k => (k, r)))).length =
        batch.countP
          (fun r => r.campaign_id.isSome && r.channel_id.isSome) := by
      have hsome : ∀ r : RawEvent, (etlKey r).isSome =
          (r.campaign_id.isSome && r.channel_id.isSome) := by
        intro r
        rcases r with ⟨i, u, n, d, h, ca, ch⟩
        cases ca <;> cases ch <;> rfl
      induction batch with
      | nil => rfl
      | cons r rs ih =>
        have hb := hsome r
        rcases hek : etlKey r with _ | k
        · rw [hek] at hb
          simp [List.filterMap_cons, hek, List.countP_cons, ih, ← hb]
        · rw [hek] at hb
          simp [List.filterMap_cons, hek, List.countP_cons, ih, ← hb,
            Nat.add_comm]
    rw [transformEventsData, List.map_map]
    have : ((fun b => b.event_count) ∘
        (fun k : Nat × Nat × Nat × Nat × String =>
          let grp := (batch.filterMap
            (fun r => (etlKey r).map (fun k => (k, r)))).filter
              (fun p => p.1 == k)
          ({ campaign_id := k.1, channel_id := k.2.1, event_date := k.2.2.1,
             event_hour := k.2.2.2.1, event_name := k.2.2.2.2,
             unique_users := distinctCount (grp.map (fun p => p.2.user_id)),
             event_count := grp.length } : HourlyRow))) =
        (fun k => ((batch.filterMap
          (fun r => (etlKey r).map (fun k => (k, r)))).filter
            (fun p => p.1 == k)).length) := rfl
    rw [this, hrows, hcount]
  · decide

/-- A missing revenue match (`COALESCE(cr.revenue, 0)`) yields ROAS `0`
in both branches of the `CASE`. -/
theorem roasValue_none (spendSum : ℚ) : roasValue none spendSum = 0 := by
  by_cases h : spendSum > 0 <;> simp [roasValue, h]

/-- A missing acquisitions match (`COALESCE(sa.acquisitions, 0)`) yields
CAC `0`. -/
theorem cacValue_none (spendSum : ℚ) : cacValue spendSum none = 0 := by
  simp [cacValue]

/-- Left-join completeness of the MATERIALIZED views: every
`(date, segment)` with attributed events but no purchase conversions by
the segment's users that date still yields a `segment_cac` row with
`cac = 0`, and every `(date, channel)` with attributed events but no
conversions on that channel that date still yields a `channel_roas` row
with `roas = 0` — the left joins keep the spend-side keys and `COALESCE`
turns the missing side into `0`. -/
theorem matLeftJoinComplete (db : FactDB) (d s d2 c2 : Nat)
    (hspend : ∃ e ∈ db.events, e.date = d ∧
      (∃ ca ∈ db.campaigns, ca.id = e.campaign_id) ∧
      ∃ us ∈ db.user_segments, us.user_id = e.user_id ∧
        us.segment_id = s ∧ ∃ sg ∈ db.segments, sg.id = s)
    (hnoacq : ∀ c ∈ db.conversions, c.ctype = "purchase" → c.date = d →
      ∀ us ∈ db.user_segments, us.user_id = c.user_id → us.segment_id ≠ s)
    (hspend2 : ∃ e ∈ db.events, e.date = d2 ∧ e.channel_id = c2 ∧
      (∃ ca ∈ db.campaigns, ca.id = e.campaign_id) ∧
      ∃ ch ∈ db.channels, ch.id = c2)
    (hnorev : ∀ c ∈ db.conversions, c.date = d2 → c.channel_id ≠ c2) :
    (∃ r ∈ segmentCAC db, r.date = d ∧ r.segment_id = s ∧ r.cac = 0) ∧
    (∃ r ∈ channelROAS db, r.date = d2 ∧ r.channel_id = c2 ∧ r.roas = 0) := by
  constructor
  · obtain ⟨e, he, hed, ⟨ca, hca, hcaid⟩, us, hus, husu, huss, sg, hsg, hsgid⟩ :=
      hspend
    have hr0 : (e, ca, us, sg) ∈ segCostJoin db := by
      simp only [segCostJoin, List.mem_flatMap, List.mem_filter,
        List.mem_map]
      exact ⟨e, he, ca, ⟨hca, by simp [hcaid]⟩,
        us, ⟨hus, by simp [husu]⟩, sg, ⟨hsg, by simp [hsgid, huss]⟩, rfl⟩
    have hk0 : segCostKey (e, ca, us, sg) ∈
        firstKeys ((segCostJoin db).map segCostKey) :=
      (mem_firstKeys _ _).mpr (List.mem_map.mpr ⟨_, hr0, rfl⟩)
    have hacq : segAcqLookup db d s = none := by
      unfold segAcqLookup
      rw [Option.map_eq_none', List.find?_eq_none]
      intro a ha
      simp only [segmentAcquisitions, List.mem_map] at ha
      obtain ⟨k, hk, rfl⟩ := ha
      have hkmem := (mem_firstKeys _ _).mp hk
      obtain ⟨p, hcus, hkey⟩ := List.mem_map.mp hkmem
      simp only [segAcqJoin, List.mem_flatMap, List.mem_filter,
        List.mem_map] at hcus
      obtain ⟨c', ⟨hc', hcp⟩, us'', ⟨hus'', husu''⟩, heq⟩ := hcus
      subst heq
      subst hkey
      simp only [segAcqKey, Bool.and_eq_true, beq_iff_eq, not_and]
      intro hdate hseg
      exact hnoacq c' hc' (by simpa using hcp) hdate
        us'' hus'' (by simpa using husu'') hseg
    simp only [segmentCAC]
    obtain ⟨cr, hcrmem, hcrd, hcrs⟩ :
        ∃ cr ∈ segmentCosts db, cr.date = d ∧ cr.segment_id = s := by
      unfold segmentCosts
      exact ⟨_, List.mem_map.mpr ⟨_, hk0, rfl⟩,
        by simp [segCostKey, hed], by simp [segCostKey, huss]⟩
    have hfk : segCacFinalKey db cr ∈
        firstKeys ((segmentCosts db).map (segCacFinalKey db)) :=
      (mem_firstKeys _ _).mpr (List.mem_map.mpr ⟨_, hcrmem, rfl⟩)
    refine ⟨_, List.mem_map.mpr ⟨segCacFinalKey db cr, hfk, rfl⟩,
      ?_, ?_, ?_⟩
    · simp [segCacFinalKey, hcrd]
    · simp [segCacFinalKey, hcrs]
    · simp only [segCacFinalKey, hcrd, hcrs, hacq]
      exact cacValue_none _
  · obtain ⟨e, he, hed, hec, ⟨ca, hca, hcaid⟩, ch, hch, hchid⟩ := hspend2
    have hr0 : (e, ca, ch) ∈ chanSpendJoin db := by
      simp only [chanSpendJoin, List.mem_flatMap, List.mem_filter,
        List.mem_map]
      exact ⟨e, he, ca, ⟨hca, by simp [hcaid]⟩,
        ch, ⟨hch, by simp [hchid, hec]⟩, rfl⟩
    have hk0 : chanSpendKey (e, ca, ch) ∈
        firstKeys ((chanSpendJoin db).map chanSpendKey) :=
      (mem_firstKeys _ _).mpr (List.mem_map.mpr ⟨_, hr0, rfl⟩)
    have hrev : chanRevLookup db d2 c2 = none := by
      unfold chanRevLookup
      rw [Option.map_eq_none', List.find?_eq_none]
      intro a ha
      simp only [channelRevenue, List.mem_map] at ha
      obtain ⟨k, hk, rfl⟩ := ha
      have hkmem := (mem_firstKeys _ _).mp hk
      obtain ⟨p, hcc, hkey⟩ := List.mem_map.mp hkmem
      simp only [chanRevJoin, List.mem_flatMap, List.mem_filter,
        List.mem_map] at hcc
      obtain ⟨c', hc', ch'', ⟨hch'', hchid''⟩, heq⟩ := hcc
      subst heq
      subst hkey
      simp only [chanRevKey, Bool.and_eq_true, beq_iff_eq, not_and]
      intro hdate hcid
      have h1 : ch''.id = c'.channel_id := by simpa using hchid''
      exact hnorev c' hc' hdate (by omega)
    simp only [channelROAS]
    obtain ⟨sr, hsrmem, hsrd, hsrc⟩ :
        ∃ sr ∈ channelSpend db, sr.date = d2 ∧ sr.channel_id = c2 := by
      unfold channelSpend
      exact ⟨_, List.mem_map.mpr ⟨_, hk0, rfl⟩,
        by simp [chanSpendKey, hed], by simp [chanSpendKey, hchid]⟩
    have hfk : chanRoasFinalKey db sr ∈
        firstKeys ((channelSpend db).map (chanRoasFinalKey db)) :=
      (mem_firstKeys _ _).mpr (List.mem_map.mpr ⟨_, hsrmem, rfl⟩)
    refine ⟨_, List.mem_map.mpr ⟨chanRoasFinalKey db sr, hfk, rfl⟩,
      ?_, ?_, ?_⟩
    · simp [chanRoasFinalKey, hsrd]
    · simp [chanRoasFinalKey, hsrc]
    · simp only [chanRoasFinalKey, hsrd, hsrc, hrev]
      exact roasValue_none _

/-- Fixture: one attributed event on day 1 touching segment 1 and
channel 1, and no conversions at all — a pure spend-side key. -/
def spendOnlyDb : FactDB :=
  { channels := [⟨1, "Facebook Ads", "Social"⟩],
    segments := [⟨1, "New Visitors"⟩],
    campaigns := [⟨1, "Spring Campaign", 1, 30⟩],
    user_segments := [⟨"user_1", 1⟩],
    events := [⟨1, "user_1", "click", 1, 1, 1⟩],
    conversions := [] }

/-- Every row of the DAG-created `segment_cac` view is driven by a
`new_customer` conversion of a user of the row's segment on the row's
date — the view is built from `conversions` with inner joins, so there is
no spend-only side. -/
theorem dagSegCac_has_conversion (db : FactDB) (r : DagSegCacRow)
    (hr : r ∈ dagSegmentCac db) :
    ∃ c ∈ db.conversions, c.ctype = "new_customer" ∧ c.date = r.date ∧
      ∃ us ∈ db.user_segments, us.user_id = c.user_id ∧
        us.segment_id = r.segment_id := by
  simp only [dagSegmentCac] at hr
  obtain ⟨k, hk, rfl⟩ := List.mem_map.mp hr
  obtain ⟨j, hj, hkey⟩ := List.mem_map.mp ((mem_firstKeys _ _).mp hk)
  simp only [dagSegCacJoin, List.mem_flatMap, List.mem_filter,
    List.mem_map] at hj
  obtain ⟨c, ⟨hc, hcn⟩, us, ⟨hus, huid⟩, sg, ⟨hsg, hsgid⟩, ca, ⟨hca, hcaid⟩,
    heq⟩ := hj
  subst heq
  subst hkey
  exact ⟨c, hc, by simpa using hcn, rfl, us, hus, by simpa using huid,
    by simpa using (beq_iff_eq.mp hsgid).symm⟩

/-- Every row of the DAG-created `channel_roas` view is driven by a
conversion attributed (through its campaign) to the row's channel on the
row's date. -/
theorem dagChanRoas_has_conversion (db : FactDB) (r : DagChanRoasRow)
    (hr : r ∈ dagChannelRoas db) :
    ∃ c ∈ db.conversions, c.date = r.date ∧
      ∃ ca ∈ db.campaigns, ca.id = c.campaign_id ∧
        ∃ ch ∈ db.channels, ch.id = ca.channel_id ∧
          ch.id = r.channel_id := by
  simp only [dagChannelRoas] at hr
  obtain ⟨k, hk, rfl⟩ := List.mem_map.mp hr
  obtain ⟨j, hj, hkey⟩ := List.mem_map.mp ((mem_firstKeys _ _).mp hk)
  simp only [dagChanRoasJoin, List.mem_flatMap, List.mem_filter,
    List.mem_map] at hj
  obtain ⟨c, hc, ca, ⟨hca, hcaid⟩, ch, ⟨hch, hchid⟩, heq⟩ := hj
  subst heq
  subst hkey
  exact ⟨c, hc, rfl, ca, hca, by simpa using hcaid,
    ch, hch, by simpa using hchid, rfl⟩

/-- Claim C3, counterexample: `spendOnlyDb` has attributed spend-side
events for `(date, segment) = (1, 1)` and `(date, channel) = (1, 1)` and
no conversions, yet the DAG-created `segment_cac` and `channel_roas`
views (`calculate_metrics`) are EMPTY — the spend-only keys are omitted
outright rather than appearing with value `0`, so the claim fails for
those cited views. -/
theorem c3_counterexample :
    (∃ e ∈ spendOnlyDb.events, e.date = 1 ∧ e.channel_id = 1 ∧
      (∃ ca ∈ spendOnlyDb.campaigns, ca.id = e.campaign_id) ∧
      ∃ us ∈ spendOnlyDb.user_segments, us.user_id = e.user_id ∧
        us.segment_id = 1) ∧
    dagSegmentCac spendOnlyDb = [] ∧ dagChannelRoas spendOnlyDb = [] := by
  refine ⟨?_, rfl, rfl⟩
  decide

/-- Claim C3 (amended): in the views of `create_materialized_views` the
left joins keep every spend-side `(date, entity)` key, with `cac = 0`
(respectively `roas = 0`) when acquisitions (revenue) are missing; in the
views rebuilt by `calculate_metrics` every `segment_cac` row requires a
`new_customer` conversion of a segment user on its date and every
`channel_roas` row requires a conversion attributed to its channel on its
date — those views have no spend side, so spend-only keys are omitted
entirely. -/
theorem c3_amended (db : FactDB) (d s d2 c2 : Nat)
    (hspend : ∃ e ∈ db.events, e.date = d ∧
      (∃ ca ∈ db.campaigns, ca.id = e.campaign_id) ∧
      ∃ us ∈ db.user_segments, us.user_id = e.user_id ∧
        us.segment_id = s ∧ ∃ sg ∈ db.segments, sg.id = s)
    (hnoacq : ∀ c ∈ db.conversions, c.ctype = "purchase" → c.date = d →
      ∀ us ∈ db.user_segments, us.user_id = c.user_id → us.segment_id ≠ s)
    (hspend2 : ∃ e ∈ db.events, e.date = d2 ∧ e.channel_id = c2 ∧
      (∃ ca ∈ db.campaigns, ca.id = e.campaign_id) ∧
      ∃ ch ∈ db.channels, ch.id = c2)
    (hnorev : ∀ c ∈ db.conversions, c.date = d2 → c.channel_id ≠ c2) :
    (∃ r ∈ segmentCAC db, r.date = d ∧ r.segment_id = s ∧ r.cac = 0) ∧
    (∃ r ∈ channelROAS db, r.date = d2 ∧ r.channel_id = c2 ∧ r.roas = 0) ∧
    (∀ r ∈ dagSegmentCac db, ∃ c ∈ db.conversions,
      c.ctype = "new_customer" ∧ c.date = r.date ∧
        ∃ us ∈ db.user_segments, us.user_id = c.user_id ∧
          us.segment_id = r.segment_id) ∧
    (∀ r ∈ dagChannelRoas db, ∃ c ∈ db.conversions, c.date = r.date ∧
      ∃ ca ∈ db.campaigns, ca.id = c.campaign_id ∧
        ∃ ch ∈ db.channels, ch.id = ca.channel_id ∧
          ch.id = r.channel_id) := by
  obtain ⟨h1, h2⟩ :=
    matLeftJoinComplete db d s d2 c2 hspend hnoacq hspend2 hnorev
  exact ⟨h1, h2, fun r hr => dagSegCac_has_conversion db r hr,
    fun r hr => dagChanRoas_has_conversion db r hr⟩

/-- Claim C3, witness: the amended theorem applied to `spendOnlyDb` at
`(date, segment) = (1, 1)` and `(date, channel) = (1, 1)`. -/
theorem c3_witness :
    ((∃ r ∈ segmentCAC spendOnlyDb,
      r.date = 1 ∧ r.segment_id = 1 ∧ r.cac = 0) ∧
    (∃ r ∈ channelROAS spendOnlyDb,
      r.date = 1 ∧ r.channel_id = 1 ∧ r.roas = 0) ∧
    (∀ r ∈ dagSegmentCac spendOnlyDb, ∃ c ∈ spendOnlyDb.conversions,
      c.ctype = "new_customer" ∧ c.date = r.date ∧
        ∃ us ∈ spendOnlyDb.user_segments, us.user_id = c.user_id ∧
          us.segment_id = r.segment_id) ∧
    (∀ r ∈ dagChannelRoas spendOnlyDb, ∃ c ∈ spendOnlyDb.conversions,
      c.date = r.date ∧
      ∃ ca ∈ spendOnlyDb.campaigns, ca.id = c.campaign_id ∧
        ∃ ch ∈ spendOnlyDb.channels, ch.id = ca.channel_id ∧
          ch.id = r.channel_id)) :=
  c3_amended spendOnlyDb 1 1 1 1
    (by refine ⟨⟨1, "user_1", "click", 1, 1, 1⟩, by simp [spendOnlyDb], rfl,
          ⟨⟨1, "Spring Campaign", 1, 30⟩, by simp [spendOnlyDb], rfl⟩,
          ⟨"user_1", 1⟩, by simp [spendOnlyDb], rfl, rfl,
          ⟨1, "New Visitors"⟩, by simp [spendOnlyDb], rfl⟩)
    (by intro c hc; simp [spendOnlyDb] at hc)
    (by refine ⟨⟨1, "user_1", "click", 1, 1, 1⟩, by simp [spendOnlyDb], rfl,
          rfl, ⟨⟨1, "Spring Campaign", 1, 30⟩, by simp [spendOnlyDb], rfl⟩,
          ⟨1, "Facebook Ads", "Social"⟩, by simp [spendOnlyDb], rfl⟩)
    (by intro c hc; simp [spendOnlyDb] at hc)

/-- Whether a fact's `campaign_id` resolves in the reference data (the
inner-join test). -/
def hasCampaign (db : FactDB) (cid : Nat) : Bool :=
  db.campaigns.any (fun ca => ca.id == cid)

/-- Whether a fact's `channel_id` resolves in the reference data. -/
def hasChannel (db : FactDB) (chid : Nat) : Bool :=
  db.channels.any (fun ch => ch.id == chid)

/-- Number of facts whose campaign or channel reference is dangling — the
rows the inner joins drop.  No part of the pipeline computes or returns
this number; the definition exists only to state that. -/
def skippedFactCount (db : FactDB) : Nat :=
  db.events.countP (fun e =>
    !(hasCampaign db e.campaign_id) || !(hasChannel db e.channel_id)) +
  db.conversions.countP (fun c =>
    !(hasCampaign db c.campaign_id) || !(hasChannel db c.channel_id))

/-- Adding an event whose campaign and channel references are both
dangling leaves all five aggregate views unchanged: every join that the
event participates in filters it out. -/
theorem aggregateViews_dangling_event (db : FactDB) (e : Event)
    (he1 : ∀ ca ∈ db.campaigns, ca.id ≠ e.campaign_id)
    (he2 : ∀ ch ∈ db.channels, ch.id ≠ e.channel_id) :
    aggregateViews { db with events := e :: db.events } =
      aggregateViews db := by
  have hca : db.campaigns.filter (fun ca => ca.id == e.campaign_id) = [] :=
    List.filter_eq_nil_iff.mpr (fun ca hca => by simpa using he1 ca hca)
  have hch : db.channels.filter (fun ch => ch.id == e.channel_id) = [] :=
    List.filter_eq_nil_iff.mpr (fun ch hch => by simpa using he2 ch hch)
  have hchanjoin : chanJoin { db with events := e :: db.events } =
      chanJoin db := by
    unfold chanJoin
    rw [List.flatMap_cons]
    simp only [hch, List.map_nil, List.nil_append]
  have hcostjoin : segCostJoin { db with events := e :: db.events } =
      segCostJoin db := by
    unfold segCostJoin
    rw [List.flatMap_cons]
    simp only [hca, List.flatMap_nil, List.nil_append]
  have hspendjoin : chanSpendJoin { db with events := e :: db.events } =
      chanSpendJoin db := by
    unfold chanSpendJoin
    rw [List.flatMap_cons]
    simp only [hca, List.flatMap_nil, List.nil_append]
  unfold aggregateViews
  rw [MetricsBundle.mk.injEq]
  refine ⟨rfl, ?_, rfl, ?_, ?_⟩
  · unfold dailyChannelPerformance
    rw [hchanjoin]
  · unfold segmentCAC segmentCosts
    rw [hcostjoin]
    rfl
  · unfold channelROAS channelSpend
    rw [hspendjoin]
    rfl

/-- Adding a conversion whose campaign and channel references are
dangling and whose user belongs to no segment leaves all five aggregate
views unchanged. -/
theorem aggregateViews_dangling_conversion (db : FactDB) (c : Conversion)
    (hc1 : ∀ ca ∈ db.campaigns, ca.id ≠ c.campaign_id)
    (hc2 : ∀ ch ∈ db.channels, ch.id ≠ c.channel_id)
    (hc3 : ∀ us ∈ db.user_segments, us.user_id ≠ c.user_id) :
    aggregateViews { db with conversions := c :: db.conversions } =
      aggregateViews db := by
  have hca : db.campaigns.filter (fun ca => ca.id == c.campaign_id) = [] :=
    List.filter_eq_nil_iff.mpr (fun ca hca => by simpa using hc1 ca hca)
  have hch : db.channels.filter (fun ch => ch.id == c.channel_id) = [] :=
    List.filter_eq_nil_iff.mpr (fun ch hch => by simpa using hc2 ch hch)
  have hus : db.user_segments.filter (fun us => us.user_id == c.user_id) =
      [] :=
    List.filter_eq_nil_iff.mpr (fun us hus => by simpa using hc3 us hus)
  have hcampjoin : campJoin { db with conversions := c :: db.conversions } =
      campJoin db := by
    unfold campJoin
    rw [List.flatMap_cons]
    simp only [hca, List.flatMap_nil, List.nil_append]
  have hsegjoin : segJoin { db with conversions := c :: db.conversions } =
      segJoin db := by
    unfold segJoin
    rw [List.flatMap_cons]
    simp only [hus, List.flatMap_nil, List.nil_append]
  have hacqjoin : segAcqJoin { db with conversions := c :: db.conversions } =
      segAcqJoin db := by
    unfold segAcqJoin
    have hproj : ({ db with conversions := c :: db.conversions }).conversions
        = c :: db.conversions := rfl
    rw [hproj]
    by_cases hp : c.ctype == "purchase"
    · rw [@List.filter_cons_of_pos _ (fun x => x.ctype == "purchase") c
        db.conversions hp, List.flatMap_cons]
      simp only [hus, List.map_nil, List.nil_append]
    · rw [@List.filter_cons_of_neg _ (fun x => x.ctype == "purchase") c
        db.conversions hp]
  have hrevjoin : chanRevJoin { db with conversions := c :: db.conversions } =
      chanRevJoin db := by
    unfold chanRevJoin
    rw [List.flatMap_cons]
    simp only [hch, List.map_nil, List.nil_append]
  have hacqlook : segAcqLookup { db with conversions := c :: db.conversions } =
      segAcqLookup db := by
    funext d s
    unfold segAcqLookup segmentAcquisitions
    rw [hacqjoin]
  have hrevlook : chanRevLookup { db with conversions := c :: db.conversions } =
      chanRevLookup db := by
    funext d ch
    unfold chanRevLookup channelRevenue
    rw [hrevjoin]
  unfold aggregateViews
  rw [MetricsBundle.mk.injEq]
  refine ⟨?_, rfl, ?_, ?_, ?_⟩
  · unfold dailyCampaignPerformance
    rw [hcampjoin]
  · unfold segmentPerformance
    rw [hsegjoin]
  · unfold segmentCAC segCacFinalKey
    rw [hacqlook]
    rfl
  · unfold channelROAS chanRoasFinalKey
    rw [hrevlook]
    rfl

/-- Claim C7 (amended): a fact referencing a non-existent campaign or
channel never makes the aggregation fail — it is silently dropped by the
joins that need the missing reference — but NO count of skipped rows is
surfaced: the aggregate output on a fact set containing such a fact is
identical to the output with the fact removed, so the caller cannot
recover any skip count from what is returned. -/
theorem c7_amended (db : FactDB) (e : Event) (c : Conversion)
    (he1 : ∀ ca ∈ db.campaigns, ca.id ≠ e.campaign_id)
    (he2 : ∀ ch ∈ db.channels, ch.id ≠ e.channel_id)
    (hc1 : ∀ ca ∈ db.campaigns, ca.id ≠ c.campaign_id)
    (hc2 : ∀ ch ∈ db.channels, ch.id ≠ c.channel_id)
    (hc3 : ∀ us ∈ db.user_segments, us.user_id ≠ c.user_id) :
    aggregateViews { db with events := e :: db.events } =
      aggregateViews db ∧
    aggregateViews { db with conversions := c :: db.conversions } =
      aggregateViews db :=
  ⟨aggregateViews_dangling_event db e he1 he2,
   aggregateViews_dangling_conversion db c hc1 hc2 hc3⟩

/-- Fixture: a well-referenced fact set (one event, no malformed
facts). -/
def cleanDb : FactDB :=
  { channels := [⟨1, "Facebook Ads", "Social"⟩],
    segments := [⟨1, "New Visitors"⟩],
    campaigns := [⟨1, "Spring Campaign", 1, 30⟩],
    user_segments := [⟨"user_1", 1⟩],
    events := [⟨1, "user_1", "click", 1, 1, 1⟩],
    conversions := [] }

/-- An event referencing campaign 99 and channel 99, neither of which
exists in `cleanDb`. -/
def danglingEvent : Event := ⟨2, "user_2", "click", 1, 99, 99⟩

/-- Claim C7, counterexample: `cleanDb` with the dangling event added
produces exactly the same aggregate output as `cleanDb` itself although
their malformed-fact counts differ (1 versus 0) — hence no count of
skipped rows is surfaced to the caller, contradicting the claim's second
half. -/
theorem c7_counterexample :
    aggregateViews { cleanDb with events := danglingEvent :: cleanDb.events } =
      aggregateViews cleanDb ∧
    skippedFactCount
      { cleanDb with events := danglingEvent :: cleanDb.events } = 1 ∧
    skippedFactCount cleanDb = 0 := by
  refine ⟨aggregateViews_dangling_event cleanDb danglingEvent
    (by decide) (by decide), by decide, by decide⟩

/-- Claim C7, witness: the amended theorem applied to `cleanDb`, a
concrete dangling event and a concrete dangling conversion. -/
theorem c7_witness :
    aggregateViews { cleanDb with events := danglingEvent :: cleanDb.events } =
      aggregateViews cleanDb ∧
    aggregateViews { cleanDb with conversions :=
      ⟨5, "user_9", "purchase", 10, 1, 77, 77⟩ :: cleanDb.conversions } =
      aggregateViews cleanDb :=
  c7_amended cleanDb danglingEvent ⟨5, "user_9", "purchase", 10, 1, 77, 77⟩
    (by decide) (by decide) (by decide) (by decide) (by decide)

/-- Sortedness by the `(date, entity_id)` key, as `ORDER BY` produces. -/
def sortedByKey {α : Type} (key : α → Nat × Nat) (l : List α) : Prop :=
  List.Chain' (fun a b => keyLeb (key a) (key b) = true) l

theorem sortedByKey_sortRows {α : Type} (key : α → Nat × Nat)
    (l : List α) :
    sortedByKey key (sortRows (fun a b => keyLeb (key a) (key b)) l) :=
  chain'_sortRows _ (fun _ _ h => keyLeb_total _ _ h) l

/-- Every `segment_costs` row's `segment_name` comes from a segment
record whose `id` is the row's `segment_id`. -/
theorem segmentCosts_name (db : FactDB) (cr : SegCostRow)
    (h : cr ∈ segmentCosts db) :
    ∃ sg ∈ db.segments, sg.id = cr.segment_id ∧ sg.name = cr.segment_name := by
  unfold segmentCosts at h
  obtain ⟨k, hk, rfl⟩ := List.mem_map.mp h
  obtain ⟨r, hr, rfl⟩ := List.mem_map.mp ((mem_firstKeys _ _).mp hk)
  simp only [segCostJoin, List.mem_flatMap, List.mem_filter,
    List.mem_map] at hr
  obtain ⟨e, he, ca, ⟨hca, hcaid⟩, us, ⟨hus, husid⟩, sg, ⟨hsg, hsgid⟩, rfl⟩ :=
    hr
  exact ⟨sg, hsg, by simpa [segCostKey] using beq_iff_eq.mp hsgid, rfl⟩

/-- Every `channel_spend` row's `channel_name` comes from a channel
record whose `id` is the row's `channel_id`. -/
theorem channelSpend_name (db : FactDB) (sr : ChanSpendRow)
    (h : sr ∈ channelSpend db) :
    ∃ ch ∈ db.channels, ch.id = sr.channel_id ∧ ch.name = sr.channel_name := by
  unfold channelSpend at h
  obtain ⟨k, hk, rfl⟩ := List.mem_map.mp h
  obtain ⟨r, hr, rfl⟩ := List.mem_map.mp ((mem_firstKeys _ _).mp hk)
  simp only [chanSpendJoin, List.mem_flatMap, List.mem_filter,
    List.mem_map] at hr
  obtain ⟨e, he, ca, ⟨hca, hcaid⟩, ch, ⟨hch, hchid⟩, rfl⟩ := hr
  exact ⟨ch, hch, rfl, rfl⟩

/-- With primary-key-unique reference data, no two
`daily_campaign_performance` rows share a `(date, campaign_id)` key. -/
theorem nodup_campPerf_keys (db : FactDB)
    (hcamp : (db.campaigns.map (fun ca => ca.id)).Nodup)
    (hchan : (db.channels.map (fun ch => ch.id)).Nodup) :
    ((dailyCampaignPerformance db).map
      (fun r => (r.date, r.campaign_id))).Nodup := by
  unfold dailyCampaignPerformance
  rw [List.map_map]
  refine List.Nodup.map_on ?_ (nodup_firstKeys _)
  intro k1 h1 k2 h2 heq
  obtain ⟨r1, hr1, hk1⟩ := List.mem_map.mp ((mem_firstKeys _ _).mp h1)
  obtain ⟨r2, hr2, hk2⟩ := List.mem_map.mp ((mem_firstKeys _ _).mp h2)
  simp only [campJoin, List.mem_flatMap, List.mem_filter,
    List.mem_map] at hr1 hr2
  obtain ⟨c1, hc1, ca1, ⟨hca1, hca1id⟩, ch1, ⟨hch1, hch1id⟩, rfl⟩ := hr1
  obtain ⟨c2, hc2, ca2, ⟨hca2, hca2id⟩, ch2, ⟨hch2, hch2id⟩, rfl⟩ := hr2
  subst hk1
  subst hk2
  simp only [Function.comp, campKey, Prod.mk.injEq] at heq
  obtain ⟨hdate, hcid⟩ := heq
  have hcaeq : ca1 = ca2 := List.inj_on_of_nodup_map hcamp hca1 hca2
    (by rw [beq_iff_eq.mp hca1id, beq_iff_eq.mp hca2id, hcid])
  subst hcaeq
  have hcheq : ch1 = ch2 := List.inj_on_of_nodup_map hchan hch1 hch2
    (by rw [beq_iff_eq.mp hch1id, beq_iff_eq.mp hch2id])
  subst hcheq
  simp [campKey, hdate, hcid]

/-- No two `daily_channel_performance` rows share a
`(date, channel_id)` key. -/
theorem nodup_chanPerf_keys (db : FactDB)
    (hchan : (db.channels.map (fun ch => ch.id)).Nodup) :
    ((dailyChannelPerformance db).map
      (fun r => (r.date, r.channel_id))).Nodup := by
  unfold dailyChannelPerformance
  rw [List.map_map]
  refine List.Nodup.map_on ?_ (nodup_firstKeys _)
  intro k1 h1 k2 h2 heq
  obtain ⟨r1, hr1, hk1⟩ := List.mem_map.mp ((mem_firstKeys _ _).mp h1)
  obtain ⟨r2, hr2, hk2⟩ := List.mem_map.mp ((mem_firstKeys _ _).mp h2)
  simp only [chanJoin, List.mem_flatMap, List.mem_filter,
    List.mem_map] at hr1 hr2
  obtain ⟨e1, he1, ch1, ⟨hch1, hch1id⟩, rfl⟩ := hr1
  obtain ⟨e2, he2, ch2, ⟨hch2, hch2id⟩, rfl⟩ := hr2
  subst hk1
  subst hk2
  simp only [Function.comp, chanKey, Prod.mk.injEq] at heq
  obtain ⟨hdate, hcid⟩ := heq
  have hcheq : ch1 = ch2 := List.inj_on_of_nodup_map hchan hch1 hch2
    (by rw [beq_iff_eq.mp hch1id, beq_iff_eq.mp hch2id, hcid])
  subst hcheq
  simp [chanKey, hdate, hcid]

/-- No two `segment_performance` rows share a `(date, segment_id)`
key. -/
theorem nodup_segPerf_keys (db : FactDB)
    (hseg : (db.segments.map (fun sg => sg.id)).Nodup) :
    ((segmentPerformance db).map
      (fun r => (r.date, r.segment_id))).Nodup := by
  unfold segmentPerformance
  rw [List.map_map]
  refine List.Nodup.map_on ?_ (nodup_firstKeys _)
  intro k1 h1 k2 h2 heq
  obtain ⟨r1, hr1, hk1⟩ := List.mem_map.mp ((mem_firstKeys _ _).mp h1)
  obtain ⟨r2, hr2, hk2⟩ := List.mem_map.mp ((mem_firstKeys _ _).mp h2)
  simp only [segJoin, List.mem_flatMap, List.mem_filter,
    List.mem_map] at hr1 hr2
  obtain ⟨c1, hc1, us1, ⟨hus1, hus1id⟩, sg1, ⟨hsg1, hsg1id⟩, rfl⟩ := hr1
  obtain ⟨c2, hc2, us2, ⟨hus2, hus2id⟩, sg2, ⟨hsg2, hsg2id⟩, rfl⟩ := hr2
  subst hk1
  subst hk2
  simp only [Function.comp, segKey, Prod.mk.injEq] at heq
  obtain ⟨hdate, hsid⟩ := heq
  have hsgeq : sg1 = sg2 := List.inj_on_of_nodup_map hseg hsg1 hsg2
    (by rw [beq_iff_eq.mp hsg1id, beq_iff_eq.mp hsg2id, hsid])
  subst hsgeq
  simp [segKey, hdate, hsid]

/-- No two `segment_cac` rows share a `(date, segment_id)` key: the final
group key's name and acquisitions components are functions of the
`(date, segment_id)` pair. -/
theorem nodup_segCAC_keys (db : FactDB)
    (hseg : (db.segments.map (fun sg => sg.id)).Nodup) :
    ((segmentCAC db).map (fun r => (r.date, r.segment_id))).Nodup := by
  unfold segmentCAC
  rw [List.map_map]
  refine List.Nodup.map_on ?_ (nodup_firstKeys _)
  intro k1 h1 k2 h2 heq
  obtain ⟨cr1, hcr1, hk1⟩ := List.mem_map.mp ((mem_firstKeys _ _).mp h1)
  obtain ⟨cr2, hcr2, hk2⟩ := List.mem_map.mp ((mem_firstKeys _ _).mp h2)
  subst hk1
  subst hk2
  simp only [Function.comp, segCacFinalKey, Prod.mk.injEq] at heq
  obtain ⟨hdate, hsid⟩ := heq
  obtain ⟨sg1, hsg1, hsg1id, hsg1nm⟩ := segmentCosts_name db cr1 hcr1
  obtain ⟨sg2, hsg2, hsg2id, hsg2nm⟩ := segmentCosts_name db cr2 hcr2
  have hsgeq : sg1 = sg2 := List.inj_on_of_nodup_map hseg hsg1 hsg2
    (by rw [hsg1id, hsg2id, hsid])
  simp only [segCacFinalKey, Prod.mk.injEq]
  refine ⟨hdate, hsid, ?_, by rw [hdate, hsid]⟩
  rw [← hsg1nm, ← hsg2nm, hsgeq]

/-- No two `channel_roas` rows share a `(date, channel_id)` key. -/
theorem nodup_chanROAS_keys (db : FactDB)
    (hchan : (db.channels.map (fun ch => ch.id)).Nodup) :
    ((channelROAS db).map (fun r => (r.date, r.channel_id))).Nodup := by
  unfold channelROAS
  rw [List.map_map]
  refine List.Nodup.map_on ?_ (nodup_firstKeys _)
  intro k1 h1 k2 h2 heq
  obtain ⟨sr1, hsr1, hk1⟩ := List.mem_map.mp ((mem_firstKeys _ _).mp h1)
  obtain ⟨sr2, hsr2, hk2⟩ := List.mem_map.mp ((mem_firstKeys _ _).mp h2)
  subst hk1
  subst hk2
  simp only [Function.comp, chanRoasFinalKey, Prod.mk.injEq] at heq
  obtain ⟨hdate, hcid⟩ := heq
  obtain ⟨ch1, hch1, hch1id, hch1nm⟩ := channelSpend_name db sr1 hsr1
  obtain ⟨ch2, hch2, hch2id, hch2nm⟩ := channelSpend_name db sr2 hsr2
  have hcheq : ch1 = ch2 := List.inj_on_of_nodup_map hchan hch1 hch2
    (by rw [hch1id, hch2id, hcid])
  simp only [chanRoasFinalKey, Prod.mk.injEq]
  refine ⟨hdate, hcid, ?_, by rw [hdate, hcid]⟩
  rw [← hch1nm, ← hch2nm, hcheq]

/-- Claim C8 (amended): when the reference tables have unique primary
keys, no two rows of any of the five views share a `(date, entity_id)`
key, and the rows served by `models/database.get_metrics` are sorted
ascending by `(date, entity_id)` (its queries say `ORDER BY date,
entity`); the mock server's queries carry no `ORDER BY`, so its served
rows come in store order and need not be sorted. -/
theorem c8_amended (db : FactDB) (sd ed : Nat) (chOpt segOpt : Option Nat)
    (hcamp : (db.campaigns.map (fun ca => ca.id)).Nodup)
    (hchan : (db.channels.map (fun ch => ch.id)).Nodup)
    (hseg : (db.segments.map (fun sg => sg.id)).Nodup) :
    ((dailyCampaignPerformance db).map
      (fun r => (r.date, r.campaign_id))).Nodup ∧
    ((dailyChannelPerformance db).map
      (fun r => (r.date, r.channel_id))).Nodup ∧
    ((segmentPerformance db).map
      (fun r => (r.date, r.segment_id))).Nodup ∧
    ((segmentCAC db).map (fun r => (r.date, r.segment_id))).Nodup ∧
    ((channelROAS db).map (fun r => (r.date, r.channel_id))).Nodup ∧
    sortedByKey (fun r : CampPerfRow => (r.date, r.campaign_id))
      ((dbGetMetrics db sd ed chOpt segOpt).campaign_performance) ∧
    sortedByKey (fun r : ChanPerfRow => (r.date, r.channel_id))
      ((dbGetMetrics db sd ed chOpt segOpt).channel_performance) ∧
    sortedByKey (fun r : SegPerfRow => (r.date, r.segment_id))
      ((dbGetMetrics db sd ed chOpt segOpt).segment_performance) ∧
    sortedByKey (fun r : SegCacRow => (r.date, r.segment_id))
      ((dbGetMetrics db sd ed chOpt segOpt).segment_cac) ∧
    sortedByKey (fun r : ChanRoasRow => (r.date, r.channel_id))
      ((dbGetMetrics db sd ed chOpt segOpt).channel_roas) :=
  ⟨nodup_campPerf_keys db hcamp hchan, nodup_chanPerf_keys db hchan,
   nodup_segPerf_keys db hseg, nodup_segCAC_keys db hseg,
   nodup_chanROAS_keys db hchan,
   sortedByKey_sortRows _ _, sortedByKey_sortRows _ _,
   sortedByKey_sortRows _ _, sortedByKey_sortRows _ _,
   sortedByKey_sortRows _ _⟩

/-- Fixture: two events inserted with day 5 before day 3, so the grouped
view lists the day-5 key first. -/
def unsortedDb : FactDB :=
  { channels := [⟨1, "Facebook Ads", "Social"⟩],
    segments := [],
    campaigns := [],
    user_segments := [],
    events := [⟨1, "user_1", "click", 5, 1, 1⟩,
               ⟨2, "user_1", "click", 3, 1, 1⟩],
    conversions := [] }

/-- Claim C8, counterexample: the mock server's `/metrics/` endpoint (no
`ORDER BY`) serves the `channel_performance` rows of `unsortedDb` with
day 5 before day 3 — not ascending by `(date, entity_id)` — so the
ordering half of the claim fails for rows served by the mock server. -/
theorem c8_counterexample :
    (mockGetMetrics unsortedDb 10 (some 0) (some 10) none
        none).channel_performance =
      [⟨5, 1, "Facebook Ads", 1, 1, 1, 0, 0⟩,
       ⟨3, 1, "Facebook Ads", 1, 1, 1, 0, 0⟩] ∧
    ¬ sortedByKey (fun r : ChanPerfRow => (r.date, r.channel_id))
      ((mockGetMetrics unsortedDb 10 (some 0) (some 10) none
        none).channel_performance) := by
  have hrows : (mockGetMetrics unsortedDb 10 (some 0) (some 10) none
      none).channel_performance =
      [⟨5, 1, "Facebook Ads", 1, 1, 1, 0, 0⟩,
       ⟨3, 1, "Facebook Ads", 1, 1, 1, 0, 0⟩] := by
    norm_num [mockGetMetrics, defaultWindow, dailyChannelPerformance,
      chanJoin, chanKey, firstKeys, distinctCount, ctrValue, inWindow,
      optFilter, unsortedDb]
    decide
  refine ⟨hrows, ?_⟩
  rw [hrows]
  simp [sortedByKey, keyLeb]

/-- Claim C8, witness: the amended theorem applied to `twoEventsDb`,
whose reference tables have unique ids. -/
theorem c8_witness :
    ((dailyCampaignPerformance twoEventsDb).map
      (fun r => (r.date, r.campaign_id))).Nodup ∧
    ((dailyChannelPerformance twoEventsDb).map
      (fun r => (r.date, r.channel_id))).Nodup ∧
    ((segmentPerformance twoEventsDb).map
      (fun r => (r.date, r.segment_id))).Nodup ∧
    ((segmentCAC twoEventsDb).map (fun r => (r.date, r.segment_id))).Nodup ∧
    ((channelROAS twoEventsDb).map
      (fun r => (r.date, r.channel_id))).Nodup ∧
    sortedByKey (fun r : CampPerfRow => (r.date, r.campaign_id))
      ((dbGetMetrics twoEventsDb 0 9 none none).campaign_performance) ∧
    sortedByKey (fun r : ChanPerfRow => (r.date, r.channel_id))
      ((dbGetMetrics twoEventsDb 0 9 none none).channel_performance) ∧
    sortedByKey (fun r : SegPerfRow => (r.date, r.segment_id))
      ((dbGetMetrics twoEventsDb 0 9 none none).segment_performance) ∧
    sortedByKey (fun r : SegCacRow => (r.date, r.segment_id))
      ((dbGetMetrics twoEventsDb 0 9 none none).segment_cac) ∧
    sortedByKey (fun r : ChanRoasRow => (r.date, r.channel_id))
      ((dbGetMetrics twoEventsDb 0 9 none none).channel_roas) :=
  c8_amended twoEventsDb 0 9 none none (by decide) (by decide) (by decide)

/-- `find?` returns the unique matching element. -/
theorem find?_eq_some_of_unique {α : Type} (p : α → Bool) :
    ∀ (l : List α) (a : α), a ∈ l → p a →
      (∀ b ∈ l, p b → b = a) → l.find? p = some a
  | [], a, h, _, _ => absurd h (List.not_mem_nil a)
  | x :: xs, a, h, hpa, huniq => by
    by_cases hx : p x
    · rw [List.find?_cons_of_pos _ hx]
      exact congrArg some (huniq x (List.mem_cons_self x xs) hx)
    · rw [List.find?_cons_of_neg _ hx]
      rcases List.mem_cons.mp h with rfl | h2
      · exact absurd hpa hx
      · exact find?_eq_some_of_unique p xs a h2 hpa
          (fun b hb => huniq b (List.mem_cons_of_mem _ hb))

/-- A distinct count is positive exactly on non-empty lists. -/
theorem distinctCount_pos {α : Type} [DecidableEq α] (l : List α) :
    0 < distinctCount l ↔ l ≠ [] := by
  cases l with
  | nil => simp [distinctCount, firstKeys]
  | cons x xs => simp [distinctCount, firstKeys]

/-- `SUM(x) / c` equals the sum of the itemwise quotients. -/
theorem sum_map_div {α : Type} (g : α → ℚ) (c : ℚ) (l : List α) :
    (l.map g).sum / c = (l.map (fun x => g x / c)).sum := by
  induction l with
  | nil => simp
  | cons x xs ih => simp [add_div, ih]

/-- `COUNT(DISTINCT ...)` only depends on the set of values. -/
theorem distinctCount_congr {α : Type} [DecidableEq α] (l1 l2 : List α)
    (h : ∀ a, a ∈ l1 ↔ a ∈ l2) : distinctCount l1 = distinctCount l2 := by
  rw [distinctCount_eq_card, distinctCount_eq_card]
  congr 1
  ext a
  simp [List.mem_toFinset, h a]

/-- The left-joined `segment_acquisitions` lookup agrees with the
specification's denominator: it finds a row exactly when some user of the
segment has a purchase conversion on the date, and that row's
`acquisitions` is the count of distinct such users. -/
theorem segAcqLookup_spec (db : FactDB) (d s : Nat) :
    segAcqLookup db d s =
      if 0 < specPurchaseUsers db d s then some (specPurchaseUsers db d s)
      else none := by
  have husers : ∀ u : String,
      u ∈ ((segAcqJoin db).filter
        (fun r => segAcqKey r == (d, s))).map (fun r => r.1.user_id) ↔
      u ∈ (db.conversions.filter fun c =>
        c.ctype == "purchase" && c.date == d &&
          db.user_segments.any fun us =>
            us.user_id == c.user_id && us.segment_id == s).map
        (fun c => c.user_id) := by
    intro u
    constructor
    · intro hu
      obtain ⟨r, hrf, hru⟩ := List.mem_map.mp hu
      have hrj := List.mem_of_mem_filter hrf
      have hrk := List.of_mem_filter hrf
      simp only [segAcqJoin, List.mem_flatMap, List.mem_filter,
        List.mem_map] at hrj
      obtain ⟨c, ⟨hc, hcp⟩, us, ⟨hus, huid⟩, heq⟩ := hrj
      subst heq
      simp only [segAcqKey, Prod.mk.injEq, beq_iff_eq] at hrk
      refine List.mem_map.mpr ⟨c, List.mem_filter.mpr ⟨hc, ?_⟩, hru⟩
      simp only [Bool.and_eq_true, beq_iff_eq, List.any_eq_true]
      refine ⟨⟨by simpa using hcp, by simpa using hrk.1⟩, us, hus,
        by simp [beq_iff_eq.mp huid, hrk.2]⟩
    · intro hu
      obtain ⟨c, hcf, hcu⟩ := List.mem_map.mp hu
      have hc := List.mem_of_mem_filter hcf
      have hcp := List.of_mem_filter hcf
      simp only [Bool.and_eq_true, beq_iff_eq, List.any_eq_true] at hcp
      obtain ⟨⟨hptype, hpdate⟩, us, hus, husp1, husp2⟩ := hcp
      refine List.mem_map.mpr ⟨(c, us), List.mem_filter.mpr ⟨?_, ?_⟩, hcu⟩
      · simp only [segAcqJoin, List.mem_flatMap, List.mem_filter,
          List.mem_map]
        exact ⟨c, ⟨hc, by simpa using hptype⟩, us,
          ⟨hus, by simpa using husp1⟩, rfl⟩
      · simp only [segAcqKey, beq_iff_eq, Prod.mk.injEq]
        exact ⟨hpdate, husp2⟩
  by_cases hpos : 0 < specPurchaseUsers db d s
  · rw [if_pos hpos]
    have hne : (db.conversions.filter fun c =>
        c.ctype == "purchase" && c.date == d &&
          db.user_segments.any fun us =>
            us.user_id == c.user_id && us.segment_id == s).map
        (fun c => c.user_id) ≠ [] := by
      intro hnil
      rw [specPurchaseUsers, hnil] at hpos
      simp [distinctCount, firstKeys] at hpos
    obtain ⟨u, hu⟩ := List.exists_mem_of_ne_nil _ hne
    obtain ⟨r, hrf, hru⟩ := List.mem_map.mp ((husers u).mpr hu)
    have hrk := List.of_mem_filter hrf
    have hk0 : (d, s) ∈ firstKeys ((segAcqJoin db).map segAcqKey) :=
      (mem_firstKeys _ _).mpr (List.mem_map.mpr
        ⟨r, List.mem_of_mem_filter hrf, beq_iff_eq.mp hrk⟩)
    rcases hfind : (segmentAcquisitions db).find?
        (fun a => a.date == d && a.segment_id == s) with _ | b
    · exfalso
      rw [List.find?_eq_none] at hfind
      obtain ⟨a, hamem, had, has⟩ : ∃ a ∈ segmentAcquisitions db,
          a.date = d ∧ a.segment_id = s := by
        unfold segmentAcquisitions
        exact ⟨_, List.mem_map.mpr ⟨(d, s), hk0, rfl⟩, rfl, rfl⟩
      exact hfind a hamem (by simp [had, has])
    · have hbmem := List.mem_of_find?_eq_some hfind
      have hbp := List.find?_some hfind
      unfold segmentAcquisitions at hbmem
      obtain ⟨k, hk, rfl⟩ := List.mem_map.mp hbmem
      simp only [Bool.and_eq_true, beq_iff_eq] at hbp
      have hks : k = (d, s) := Prod.ext hbp.1 hbp.2
      subst hks
      unfold segAcqLookup
      rw [hfind]
      simp only [Option.map_some']
      congr 1
      exact distinctCount_congr _ _ husers
  · rw [if_neg hpos]
    have hnil : (db.conversions.filter fun c =>
        c.ctype == "purchase" && c.date == d &&
          db.user_segments.any fun us =>
            us.user_id == c.user_id && us.segment_id == s) = [] := by
      by_contra hne
      apply hpos
      rw [specPurchaseUsers, distinctCount_pos]
      intro hnil2
      exact hne (List.map_eq_nil_iff.mp hnil2)
    unfold segAcqLookup
    rw [Option.map_eq_none', List.find?_eq_none]
    intro a ha
    unfold segmentAcquisitions at ha
    obtain ⟨k, hk, rfl⟩ := List.mem_map.mp ha
    obtain ⟨r, hr, hkr⟩ := List.mem_map.mp ((mem_firstKeys _ _).mp hk)
    simp only [Bool.and_eq_true, beq_iff_eq, not_and]
    intro h1 h2
    have hks : k = (d, s) := by
      subst hkr
      exact Prod.ext h1 h2
    subst hks
    have hmem : r.1.user_id ∈ ((segAcqJoin db).filter
        (fun x => segAcqKey x == (d, s))).map (fun x => x.1.user_id) :=
      List.mem_map.mpr ⟨r, List.mem_filter.mpr ⟨hr, by simp [hkr]⟩, rfl⟩
    have hmem2 := (husers _).mp hmem
    rw [hnil] at hmem2
    simp at hmem2

/-- The numerator the code actually computes, written flat: every
(event, campaign record, segment membership, segment record) join
combination touching the segment on the date contributes
`spend_to_date / 30` — once per touching event row, not once per
campaign. -/
def amendedSegCacNumerator (db : FactDB) (d s : Nat) : ℚ :=
  (((segCostJoin db).filter
    (fun r => r.1.date == d && r.2.2.1.segment_id == s)).map
      (fun r => r.2.1.spend / 30)).sum

/-- De-grouping the `segment_cac` spend side: the `SUM(daily_spend)` over
the final group of a `(date, segment)` key equals the flat
`amendedSegCacNumerator` — the nested `GROUP BY`s partition the joined
rows. -/
theorem segCAC_spend_sum (db : FactDB) (d s : Nat)
    (fk : Nat × Nat × String × Option Nat)
    (hseg : (db.segments.map (fun sg => sg.id)).Nodup)
    (hfk : fk ∈ (segmentCosts db).map (segCacFinalKey db))
    (hd : fk.1 = d) (hs : fk.2.1 = s) :
    (((segmentCosts db).filter
      (fun cr => segCacFinalKey db cr == fk)).map
        (fun cr => cr.daily_spend)).sum = amendedSegCacNumerator db d s := by
  obtain ⟨cr0, hcr0, hfk0⟩ := List.mem_map.mp hfk
  have hcr0d : cr0.date = d := by
    rw [← hd, ← hfk0]
    rfl
  have hcr0s : cr0.segment_id = s := by
    rw [← hs, ← hfk0]
    rfl
  obtain ⟨sg0, hsg0, hsg0id, hsg0nm⟩ := segmentCosts_name db cr0 hcr0
  -- Step 1: the final-key filter coincides with the (date, segment) filter
  have hfilter : (segmentCosts db).filter
      (fun cr => segCacFinalKey db cr == fk) =
      (segmentCosts db).filter
        (fun cr => cr.date == d && cr.segment_id == s) := by
    apply List.filter_congr
    intro cr hcr
    by_cases hds : cr.date = d ∧ cr.segment_id = s
    · have hnm : cr.segment_name = cr0.segment_name := by
        obtain ⟨sg, hsg, hsgid, hsgnm⟩ := segmentCosts_name db cr hcr
        have : sg = sg0 := List.inj_on_of_nodup_map hseg hsg hsg0
          (by rw [hsgid, hsg0id, hds.2, hcr0s])
        rw [← hsgnm, ← hsg0nm, this]
      have hkeq : segCacFinalKey db cr = fk := by
        rw [← hfk0]
        unfold segCacFinalKey
        rw [hds.1, hds.2, hnm, hcr0d, hcr0s]
      simp [hkeq, hds.1, hds.2]
    · have hkne : segCacFinalKey db cr ≠ fk := by
        intro hkeq
        apply hds
        constructor
        · rw [← hd, ← hkeq]
          rfl
        · rw [← hs, ← hkeq]
          rfl
      rw [Bool.eq_iff_iff]
      simp only [beq_iff_eq, Bool.and_eq_true]
      constructor
      · intro h
        exact absurd h hkne
      · intro h
        exact absurd h hds
  rw [hfilter]
  -- Step 2: push the filter through the grouped-row map
  unfold segmentCosts
  rw [List.filter_map, List.map_map]
  have hpred : ((fun cr : SegCostRow => cr.date == d && cr.segment_id == s) ∘
      (fun k : Nat × Nat × String × Nat × ℚ =>
        ({ date := k.1, segment_id := k.2.1, segment_name := k.2.2.1,
           campaign_id := k.2.2.2.1,
           daily_spend := (((segCostJoin db).filter
             (fun r => segCostKey r == k)).map
               (fun r => r.2.1.spend)).sum / 30 } : SegCostRow))) =
      (fun k : Nat × Nat × String × Nat × ℚ =>
        k.1 == d && k.2.1 == s) := by
    funext k
    rfl
  rw [hpred]
  -- Step 3: distribute the division into each group
  have hmapeq : ∀ k ∈ (firstKeys ((segCostJoin db).map segCostKey)).filter
      (fun k => k.1 == d && k.2.1 == s),
      ((fun cr : SegCostRow => cr.daily_spend) ∘
        (fun k : Nat × Nat × String × Nat × ℚ =>
          ({ date := k.1, segment_id := k.2.1, segment_name := k.2.2.1,
             campaign_id := k.2.2.2.1,
             daily_spend := (((segCostJoin db).filter
               (fun r => segCostKey r == k)).map
                 (fun r => r.2.1.spend)).sum / 30 } : SegCostRow))) k =
        (((segCostJoin db).filter (fun r => segCostKey r == k)).map
          (fun r => r.2.1.spend / 30)).sum := by
    intro k _
    exact sum_map_div _ 30 _
  rw [List.map_congr_left hmapeq]
  -- Step 4: the partition lemma collapses the grouped sums
  have hpart := sum_over_groups segCostKey
    (fun k : Nat × Nat × String × Nat × ℚ => k.1 == d && k.2.1 == s)
    (fun r : Event × Campaign × UserSegment × Segment => r.2.1.spend / 30)
    (segCostJoin db)
  rw [hpart]
  rfl

/-- Claim C1 (amended): with unique segment ids, every `segment_cac` row
for `(date, segment)` carries
`cac = amendedSegCacNumerator / (distinct purchasing users)` when that
user count is positive and `0` otherwise — i.e. the claimed formula with
the numerator weighted by the number of touching event rows per campaign
(`SUM(ca.spend)/30` under a group that repeats `ca.spend` per event)
instead of `spend/30` once per campaign; the denominator is exactly the
claimed count of distinct purchasing users of the segment that date. -/
theorem c1_amended (db : FactDB) (d s : Nat) (row : SegCacRow)
    (hseg : (db.segments.map (fun sg => sg.id)).Nodup)
    (hrow : row ∈ segmentCAC db) (hd : row.date = d)
    (hs : row.segment_id = s) :
    row.cac =
      if 0 < specPurchaseUsers db d s then
        amendedSegCacNumerator db d s / (specPurchaseUsers db d s : ℚ)
      else 0 := by
  simp only [segmentCAC] at hrow
  obtain ⟨fk, hfk, rfl⟩ := List.mem_map.mp hrow
  have hfkd : fk.1 = d := hd
  have hfks : fk.2.1 = s := hs
  have hfkmem : fk ∈ (segmentCosts db).map (segCacFinalKey db) :=
    (mem_firstKeys _ _).mp hfk
  obtain ⟨cr0, hcr0, hfk0⟩ := List.mem_map.mp hfkmem
  have hlook : fk.2.2.2 = segAcqLookup db d s := by
    have h1 : fk.2.2.2 = segAcqLookup db cr0.date cr0.segment_id := by
      rw [← hfk0]
      rfl
    have h2 : cr0.date = d := by
      rw [← hfkd, ← hfk0]
      rfl
    have h3 : cr0.segment_id = s := by
      rw [← hfks, ← hfk0]
      rfl
    rw [h1, h2, h3]
  show cacValue _ fk.2.2.2 = _
  rw [hlook, segAcqLookup_spec]
  by_cases hpos : 0 < specPurchaseUsers db d s
  · rw [if_pos hpos, if_pos hpos]
    unfold cacValue
    rw [if_pos (by simpa using hpos)]
    rw [segCAC_spend_sum db d s fk hseg hfkmem hfkd hfks]
    rfl
  · rw [if_neg hpos, if_neg hpos]
    simp [cacValue]

/-- Claim C1, witness: the amended theorem applied to `twoEventsDb` and
its single `segment_cac` row. -/
theorem c1_witness :
    (⟨1, 1, "New Visitors", 2⟩ : SegCacRow).cac =
      if 0 < specPurchaseUsers twoEventsDb 1 1 then
        amendedSegCacNumerator twoEventsDb 1 1 /
          (specPurchaseUsers twoEventsDb 1 1 : ℚ)
      else 0 :=
  c1_amended twoEventsDb 1 1 ⟨1, 1, "New Visitors", 2⟩ (by decide)
    (by norm_num [segmentCAC, segmentCosts, segCostJoin, segCostKey,
      firstKeys, segCacFinalKey, segAcqLookup, segmentAcquisitions,
      segAcqJoin, segAcqKey, cacValue, distinctCount, List.find?,
      twoEventsDb])
    rfl rfl
